import Mathlib

/-!
# Verification of the NdsSDFormat FAT32 geometry and serialization engine

Shallow embedding of the C++ sources `src/SDFormat.cpp` (free-function C API)
and `src/SectorWriter.cpp` (class `sdFormat::SectorWriter`), together with
theorems settling the frozen claims about the natural-language specification.

Machine integers are modelled as `Nat` with explicit reduction `% 2^32`
(`u32`) at every point where the C code narrows to `uint32_t`, and wrapping
subtraction `sub32` where 32-bit unsigned subtraction can underflow.  The
64-bit intermediate arithmetic of the code is modelled as plain `Nat`
arithmetic: every claim carries the spec's minimum-size precondition
`totalSectors ≥ 18432`, under which the `uint64_t` subtractions in the code
cannot underflow, so `Nat` truncated subtraction and `uint64_t` subtraction
agree on the sources' inputs.
-/

set_option maxRecDepth 4000

namespace NdsSD

/-- Result codes of `SDFormatResult.h` (the C API of `SDFormat.cpp` uses the
same values under C-style names `SDFormatSuccess`, ...). -/
inductive SDFormatResult where
  | Success
  | AccessDenied
  | DeviceBusy
  | InvalidDevice
  | IOError
  | TooSmall
  | UnknownError
deriving DecidableEq, Repr

/-- Narrowing cast to `uint32_t`: reduction modulo 2^32. -/
def u32 (n : Nat) : Nat := n % 4294967296

/-- 32-bit unsigned wrapping subtraction `a - b` where `a` is already a
32-bit value: `(a + 2^32 - (b mod 2^32)) mod 2^32`.  Since
`b % 2^32 ≤ 2^32`, the inner `Nat` subtraction never truncates. -/
def sub32 (a b : Nat) : Nat := u32 (a + (4294967296 - u32 b))

-- ---------------------------------------------------------------------------
-- Constants (SDFormat.cpp / SectorWriter.h)
-- ---------------------------------------------------------------------------

def kSectorSize : Nat := 512
def kSectorsPerCluster : Nat := 64
def kPartitionAlignmentSectors : Nat := 8192
def kReservedSectors : Nat := 32
def kFatCount : Nat := 2
def kFatStartSector : Nat := kPartitionAlignmentSectors + kReservedSectors
def kMbrSignature : Nat := 0xAA55
def kPartitionTypeFat32Lba : Nat := 0x0C
def kMbrBootstrapSize : Nat := 446
def kVbrSignature : Nat := 0xAA55
def kAttrVolumeId : Nat := 0x08
def kRootCluster : Nat := 2
def kMediaDescriptor : Nat := 0xF8
def kFsInfoSector : Nat := 1
def kBackupBootSector : Nat := 6
/-- `SectorWriter::make`'s minimum device size assertion (~9 MB). -/
def kMinSectorsForMBR : Nat := 18432

-- ---------------------------------------------------------------------------
-- Geometry derivation (SDFormat.cpp, lines 733-820)
-- ---------------------------------------------------------------------------

/-- `partitionSectorCount` (SDFormat.cpp): `sectorCount - kPartitionAlignmentSectors`
in `uint64_t`. -/
def partitionSectorCount (sectorCount : Nat) : Nat :=
  sectorCount - kPartitionAlignmentSectors

/-- `fatSizeSectors` (SDFormat.cpp lines 765-780): ceiling division of the
allocatable sectors by the FAT-entry density `(256*64+2)/2 = 8193`,
computed in `uint64_t` and narrowed to `uint32_t` at the return. -/
def fatSizeSectors (sectorCount : Nat) : Nat :=
  let sectorsToAllocate := partitionSectorCount sectorCount - kReservedSectors
  let sectorsPerFatEntry := (256 * kSectorsPerCluster + kFatCount) / 2
  u32 ((sectorsToAllocate + (sectorsPerFatEntry - 1)) / sectorsPerFatEntry)

/-- `dataStartSector` (SDFormat.cpp): `kFatStartSector + kFatCount * fatSizeSectors`,
computed in `uint32_t`. -/
def dataStartSector (sectorCount : Nat) : Nat :=
  u32 (kFatStartSector + u32 (kFatCount * fatSizeSectors sectorCount))

/-- `freeClusterCount` (SDFormat.cpp lines 809-820).  Note the source narrows
`partitionSectorCount(sectorCount)` to `uint32_t` *before* the subtractions;
all subsequent arithmetic is 32-bit. -/
def freeClusterCount (sectorCount : Nat) : Nat :=
  let totalDataSectors :=
    sub32 (sub32 (u32 (partitionSectorCount sectorCount)) kReservedSectors)
      (u32 (kFatCount * fatSizeSectors sectorCount))
  let totalClusters := totalDataSectors / kSectorsPerCluster
  sub32 totalClusters 1

-- ---------------------------------------------------------------------------
-- Geometry derivation (SectorWriter.cpp, SectorWriter::make lines 152-179)
-- ---------------------------------------------------------------------------

/-- FAT size as derived in `SectorWriter::make`:
`(tmpSize * 4 + (kSectorSize * kSectorsPerCluster - 1)) / (kSectorSize * kSectorsPerCluster)`
with `tmpSize = mbrPartitionSectorCount - kReservedSectors` in `uint64_t`. -/
def fatSizeSectorsSW (sectorCount : Nat) : Nat :=
  let tmpSize := (sectorCount - kPartitionAlignmentSectors) - kReservedSectors
  u32 ((tmpSize * 4 + (kSectorSize * kSectorsPerCluster - 1)) /
        (kSectorSize * kSectorsPerCluster))

/-- `fatStartSector` in `SectorWriter::make`. -/
def fatStartSectorSW : Nat := kPartitionAlignmentSectors + kReservedSectors

/-- `dataStartSector` in `SectorWriter::make` (uint32 arithmetic). -/
def dataStartSectorSW (sectorCount : Nat) : Nat :=
  u32 (fatStartSectorSW + u32 (kFatCount * fatSizeSectorsSW sectorCount))

/-- `freeClusterCount` in `SectorWriter::make`: same shape as the C API's,
including the narrowing of `mbrPartitionSectorCount` to `uint32_t`. -/
def freeClusterCountSW (sectorCount : Nat) : Nat :=
  let totalDataSectors :=
    sub32 (sub32 (u32 (sectorCount - kPartitionAlignmentSectors)) kReservedSectors)
      (u32 (kFatCount * fatSizeSectorsSW sectorCount))
  sub32 (totalDataSectors / kSectorsPerCluster) 1

-- ---------------------------------------------------------------------------
-- Volume label preparation (identical in SDFormat.cpp:699-714 and
-- SectorWriter.cpp:121-130).  A C string / string_view is a list of bytes.
-- ---------------------------------------------------------------------------

/-- `std::toupper` on an `unsigned char` in the C locale: maps `a`-`z` to
`A`-`Z` and leaves every other byte unchanged. -/
def toUpperByte (c : Nat) : Nat := if 97 ≤ c ∧ c ≤ 122 then c - 32 else c

/-- `prepareVolumeLabel`: the first `min(len,11)` characters uppercased,
space-padded (0x20) to exactly 11 characters. -/
def prepareVolumeLabel (label : List Nat) : List Nat :=
  (label.take 11).map toUpperByte ++ List.replicate (11 - label.length) 32

-- ---------------------------------------------------------------------------
-- On-disk structures as byte images.  All structs in the sources are packed
-- and little-endian; each is serialized here field by field, in declaration
-- order, as a list of bytes.
-- ---------------------------------------------------------------------------

/-- Little-endian 16-bit serialization. -/
def le16 (n : Nat) : List Nat := [n % 256, n / 256 % 256]

/-- Little-endian 32-bit serialization. -/
def le32 (n : Nat) : List Nat :=
  [n % 256, n / 256 % 256, n / 65536 % 256, n / 16777216 % 256]

/-- `PartitionEntry` for partition slot 0 as built in `sdFormatWriteMBR`:
status 0x80, CHS sentinels 0xFF, type 0x0C, lbaStart 8192,
sectorCount `(uint32_t)partitionSectorCount`. -/
def partitionEntry0Bytes (sectorCount : Nat) : List Nat :=
  [0x80, 0xFF, 0xFF, 0xFF, kPartitionTypeFat32Lba, 0xFF, 0xFF, 0xFF] ++
    le32 kPartitionAlignmentSectors ++ le32 (u32 (partitionSectorCount sectorCount))

/-- `MasterBootRecord` image: 446 zero bootstrap bytes, slot 0, three zeroed
slots, signature 0xAA55. -/
def mbrBytes (sectorCount : Nat) : List Nat :=
  List.replicate kMbrBootstrapSize 0 ++ partitionEntry0Bytes sectorCount ++
    List.replicate 48 0 ++ le16 kMbrSignature

/-- `BiosParameterBlock` image (53 bytes, offsets 0x00B-0x03F of the VBR). -/
def bpbBytes (sectorCount : Nat) : List Nat :=
  le16 kSectorSize ++ [kSectorsPerCluster] ++ le16 kReservedSectors ++
    [kFatCount] ++ le16 0 ++ le16 0 ++ [kMediaDescriptor] ++ le16 0 ++
    le16 63 ++ le16 255 ++ le32 kPartitionAlignmentSectors ++
    le32 (u32 (partitionSectorCount sectorCount)) ++
    le32 (fatSizeSectors sectorCount) ++ le16 0 ++ le16 0 ++
    le32 kRootCluster ++ le16 kFsInfoSector ++ le16 kBackupBootSector ++
    List.replicate 12 0

/-- `VolumeBootRecord` image.  `volumeId` is the wall-clock serial (a free
parameter here); `vol` is the already-prepared 11-byte volume label. -/
def vbrBytes (sectorCount serial : Nat) (vol : List Nat) : List Nat :=
  [0xEB, 0x58, 0x90] ++
    [0x4D, 0x53, 0x57, 0x49, 0x4E, 0x34, 0x2E, 0x31] ++
    bpbBytes sectorCount ++
    [0x80, 0, 0x29] ++ le32 (u32 serial) ++ vol ++
    [0x46, 0x41, 0x54, 0x33, 0x32, 0x20, 0x20, 0x20] ++
    List.replicate 420 0 ++ le16 kVbrSignature

/-- `FSInfo` image. -/
def fsInfoBytes (freeCount : Nat) : List Nat :=
  le32 0x41615252 ++ List.replicate 480 0 ++ le32 0x61417272 ++
    le32 freeCount ++ le32 3 ++ List.replicate 12 0 ++ le32 0xAA550000

/-- First sector of each FAT copy: 128 little-endian 32-bit entries,
entries 0-2 set to `0xFFFFFF00 | kMediaDescriptor`, `0xFFFFFFFF`,
`0x0FFFFFFF`, entries 3-127 zero. -/
def fatHeaderSectorBytes : List Nat :=
  le32 (Nat.lor 0xFFFFFF00 kMediaDescriptor) ++ le32 0xFFFFFFFF ++
    le32 0x0FFFFFFF ++ List.replicate 500 0

/-- `RootDirSector` image: one 32-byte volume-label `DirectoryEntry`
(name = prepared label, attributes = 0x08, all other fields zero) followed
by 480 zero bytes. -/
def rootDirSectorBytes (vol : List Nat) : List Nat :=
  vol ++ [kAttrVolumeId] ++ [0, 0] ++ le16 0 ++ le16 0 ++ le16 0 ++
    le16 0 ++ le16 0 ++ le16 0 ++ le16 0 ++ le32 0 ++
    List.replicate 480 0

-- ---------------------------------------------------------------------------
-- I/O model.  The device is modelled by an oracle: each `writeBytes` call is
-- assigned a `CallBehavior`, and the inner retry loop consumes a list of
-- `write(2)` outcomes.  Every function also returns the list of syscalls it
-- performed, for frame reasoning.
-- ---------------------------------------------------------------------------

/-- One outcome of the `write(2)` syscall inside the retry loop of
`writeBytes`: a (possibly partial) write of `n` bytes, `-1` with
`errno == EINTR`, or `-1` with any other `errno`. -/
inductive WriteStep where
  | wrote (n : Nat)
  | eintr
  | fail
deriving DecidableEq, Repr

/-- Behavior the environment assigns to one `writeBytes` call:
`ok` = seek succeeds and a single `write` transfers everything,
`seekFail` = `lseek` returns `-1`,
`io steps` = seek succeeds and the retry loop sees `steps`. -/
inductive CallBehavior where
  | ok
  | seekFail
  | io (steps : List WriteStep)
deriving DecidableEq, Repr

/-- Record of a performed syscall: `seek off` is `lseek(fd, off, SEEK_SET)`;
`writeCall off data` is a `write(fd, ptr, data.length)` issued at file
position `off` attempting exactly the bytes `data`. -/
inductive Syscall where
  | seek (offset : Nat)
  | writeCall (offset : Nat) (data : List Nat)
deriving DecidableEq, Repr

/-- The partial-write / EINTR retry loop of `writeBytes` (both sources have
the identical loop).  `pos` is the current file position (the descriptor's
position advances with each successful partial write), `data` the remaining
bytes.  `none` means the oracle was exhausted (or reported an impossible
over-long write) while the C loop would still be running. -/
def writeLoop : List WriteStep → Nat → List Nat → Option SDFormatResult × List Syscall
  | _, _, [] => (some SDFormatResult.Success, [])
  | [], _, _ :: _ => (none, [])
  | WriteStep.wrote n :: rest, pos, b :: bs =>
      if n ≤ (b :: bs).length then
        let r := writeLoop rest (pos + n) ((b :: bs).drop n)
        (r.1, Syscall.writeCall pos (b :: bs) :: r.2)
      else (none, [Syscall.writeCall pos (b :: bs)])
  | WriteStep.eintr :: rest, pos, b :: bs =>
      let r := writeLoop rest pos (b :: bs)
      (r.1, Syscall.writeCall pos (b :: bs) :: r.2)
  | WriteStep.fail :: _, pos, b :: bs =>
      (some SDFormatResult.IOError, [Syscall.writeCall pos (b :: bs)])

/-- Post-guard body shared verbatim by both sources' `writeBytes`:
seek to `offset`, then run the retry loop. -/
def writeBody (offset : Nat) (data : List Nat) :
    CallBehavior → Option SDFormatResult × List Syscall
  | CallBehavior.seekFail => (some SDFormatResult.IOError, [Syscall.seek offset])
  | CallBehavior.ok =>
      let r := writeLoop [WriteStep.wrote data.length] offset data
      (r.1, Syscall.seek offset :: r.2)
  | CallBehavior.io steps =>
      let r := writeLoop steps offset data
      (r.1, Syscall.seek offset :: r.2)

/-- `writeBytes` (SDFormat.cpp lines 846-880): empty data is a no-op
success checked before the handle; a negative descriptor is
`InvalidDevice`. -/
def writeBytes (fd : Int) (offset : Nat) (data : List Nat) (b : CallBehavior) :
    Option SDFormatResult × List Syscall :=
  if data.isEmpty then (some SDFormatResult.Success, [])
  else if fd < 0 then (some SDFormatResult.InvalidDevice, [])
  else writeBody offset data b

/-- `SectorWriter::writeBytes` (SectorWriter.cpp lines 185-208): the guard
is `fd < 0 || data.empty()`, returning `InvalidDevice` — an empty span is
not a successful no-op here. -/
def writeBytesSW (fd : Int) (offset : Nat) (data : List Nat) (b : CallBehavior) :
    Option SDFormatResult × List Syscall :=
  if fd < 0 ∨ data.isEmpty then (some SDFormatResult.InvalidDevice, [])
  else writeBody offset data b

/-- Environment of a multi-call operation: one `CallBehavior` per successive
`writeBytes` call, in order; an exhausted list behaves as `CallBehavior.ok`
(the ideal all-successful device, so `[]` is the ideal device). -/
abbrev Env := List CallBehavior

/-- Run the C API `writeBytes` against the next behavior of the
environment.  Returns result, remaining environment, syscall trace. -/
def writeBytesE (fd : Int) (offset : Nat) (data : List Nat) (env : Env) :
    Option SDFormatResult × Env × List Syscall :=
  let r := writeBytes fd offset data (env.headD CallBehavior.ok)
  (r.1, env.tail, r.2)

/-- `writeSector` (SDFormat.cpp template, one 512-byte structure) and
`SectorWriter::writeSectors`: byte offset is `sectorLba * kSectorSize`. -/
def writeSectorE (fd : Int) (lba : Nat) (data : List Nat) (env : Env) :
    Option SDFormatResult × Env × List Syscall :=
  writeBytesE fd (lba * kSectorSize) data env

/-- `SectorWriter::writeBytes` run against the environment. -/
def writeBytesSWE (fd : Int) (offset : Nat) (data : List Nat) (env : Env) :
    Option SDFormatResult × Env × List Syscall :=
  let r := writeBytesSW fd offset data (env.headD CallBehavior.ok)
  (r.1, env.tail, r.2)

/-- `SectorWriter::writeSectors`. -/
def writeSectorsSWE (fd : Int) (lba : Nat) (data : List Nat) (env : Env) :
    Option SDFormatResult × Env × List Syscall :=
  writeBytesSWE fd (lba * kSectorSize) data env

/-- `zeroSectors` (SDFormat.cpp lines 922-946): writes zeros in cluster-sized
(64-sector) chunks, aborting on the first non-success chunk. -/
def zeroSectors (fd : Int) (startSector count : Nat) (env : Env) :
    Option SDFormatResult × Env × List Syscall :=
  if count = 0 then (some SDFormatResult.Success, env, [])
  else
    match writeBytesE fd (startSector * kSectorSize)
        (List.replicate (min count kSectorsPerCluster * kSectorSize) 0) env with
    | (some SDFormatResult.Success, env1, tr1) =>
        match zeroSectors fd (startSector + min count kSectorsPerCluster)
            (count - min count kSectorsPerCluster) env1 with
        | (r, env2, tr2) => (r, env2, tr1 ++ tr2)
    | (other, env1, tr1) => (other, env1, tr1)
termination_by count
decreasing_by simp [kSectorsPerCluster]; omega

/-- `SectorWriter::zeroSectors` (SectorWriter.cpp lines 216-242): identical
chunking, but through `SectorWriter::writeSectors`/`writeBytes`. -/
def zeroSectorsSW (fd : Int) (startSector count : Nat) (env : Env) :
    Option SDFormatResult × Env × List Syscall :=
  if count = 0 then (some SDFormatResult.Success, env, [])
  else
    match writeSectorsSWE fd startSector
        (List.replicate (min count kSectorsPerCluster * kSectorSize) 0) env with
    | (some SDFormatResult.Success, env1, tr1) =>
        match zeroSectorsSW fd (startSector + min count kSectorsPerCluster)
            (count - min count kSectorsPerCluster) env1 with
        | (r, env2, tr2) => (r, env2, tr1 ++ tr2)
    | (other, env1, tr1) => (other, env1, tr1)
termination_by count
decreasing_by simp [kSectorsPerCluster]; omega

-- ---------------------------------------------------------------------------
-- Public C API operations (SDFormat.cpp lines 970-1196).  Each returns the
-- first non-success result of its underlying writes, unmodified.
-- ---------------------------------------------------------------------------

/-- `sdFormatWriteMBR` (SDFormat.cpp lines 970-999): one write at sector 0. -/
def sdFormatWriteMBR (fd : Int) (sectorCount : Nat) (env : Env) :
    Option SDFormatResult × Env × List Syscall :=
  writeSectorE fd 0 (mbrBytes sectorCount) env

/-- Body of `sdFormatWriteVolumeBootRecord` over the VBR image built once
(the source constructs `vbr` and writes it twice). -/
def writeVBRWith (fd : Int) (vbr : List Nat) (env : Env) :
    Option SDFormatResult × Env × List Syscall :=
  match writeSectorE fd kPartitionAlignmentSectors vbr env with
  | (some SDFormatResult.Success, env1, tr1) =>
      match writeSectorE fd (kPartitionAlignmentSectors + kBackupBootSector)
          vbr env1 with
      | (r2, env2, tr2) => (r2, env2, tr1 ++ tr2)
  | (other, env1, tr1) => (other, env1, tr1)

/-- `sdFormatWriteVolumeBootRecord` (SDFormat.cpp lines 1016-1051): the
identical VBR image at sectors 8192 and 8198.  `serial` models the
wall-clock `(uint32_t)time(nullptr)` volume id, injected as a parameter. -/
def sdFormatWriteVolumeBootRecord (fd : Int) (sectorCount serial : Nat)
    (label : List Nat) (env : Env) :
    Option SDFormatResult × Env × List Syscall :=
  writeVBRWith fd (vbrBytes sectorCount serial (prepareVolumeLabel label)) env

/-- Body of `sdFormatWriteFSInfo` over the FSInfo image built once. -/
def writeFSInfoWith (fd : Int) (fsinfo : List Nat) (env : Env) :
    Option SDFormatResult × Env × List Syscall :=
  match writeSectorE fd (kPartitionAlignmentSectors + kFsInfoSector) fsinfo env with
  | (some SDFormatResult.Success, env1, tr1) =>
      match writeSectorE fd (kPartitionAlignmentSectors + kBackupBootSector + 1)
          fsinfo env1 with
      | (r2, env2, tr2) => (r2, env2, tr1 ++ tr2)
  | (other, env1, tr1) => (other, env1, tr1)

/-- `sdFormatWriteFSInfo` (SDFormat.cpp lines 1065-1084): the identical
FSInfo image at sectors 8193 and 8199. -/
def sdFormatWriteFSInfo (fd : Int) (sectorCount : Nat) (env : Env) :
    Option SDFormatResult × Env × List Syscall :=
  writeFSInfoWith fd (fsInfoBytes (freeClusterCount sectorCount)) env

/-- Body of `sdFormatWriteFat32Tables` over the FAT size computed once
(the source computes `uint32_t fatSize = fatSizeSectors(sectorCount)`).
The backup-FAT start `kFatStartSector + fatSize` is a `uint32_t + uint32_t`
sum at the source's call sites, so it wraps mod 2^32. -/
def writeFat32TablesWith (fd : Int) (fatSize : Nat) (env : Env) :
    Option SDFormatResult × Env × List Syscall :=
  match zeroSectors fd kFatStartSector fatSize env with
  | (some SDFormatResult.Success, env1, tr1) =>
    match writeSectorE fd kFatStartSector fatHeaderSectorBytes env1 with
    | (some SDFormatResult.Success, env2, tr2) =>
      match zeroSectors fd (u32 (kFatStartSector + fatSize)) fatSize env2 with
      | (some SDFormatResult.Success, env3, tr3) =>
        match writeSectorE fd (u32 (kFatStartSector + fatSize))
            fatHeaderSectorBytes env3 with
        | (r4, env4, tr4) => (r4, env4, tr1 ++ tr2 ++ tr3 ++ tr4)
      | (o3, env3, tr3) => (o3, env3, tr1 ++ tr2 ++ tr3)
    | (o2, env2, tr2) => (o2, env2, tr1 ++ tr2)
  | (o1, env1, tr1) => (o1, env1, tr1)

/-- `sdFormatWriteFat32Tables` (SDFormat.cpp lines 1109-1152): for each FAT
copy, zero `fatSizeSectors` sectors then overwrite its first sector with the
header sector. -/
def sdFormatWriteFat32Tables (fd : Int) (sectorCount : Nat) (env : Env) :
    Option SDFormatResult × Env × List Syscall :=
  writeFat32TablesWith fd (fatSizeSectors sectorCount) env

/-- Body of `sdFormatWriteRootDirectory` over the data-start sector and the
prepared label, both computed once by the source. -/
def writeRootDirectoryWith (fd : Int) (dataStart : Nat) (vol : List Nat)
    (env : Env) : Option SDFormatResult × Env × List Syscall :=
  match zeroSectors fd dataStart kSectorsPerCluster env with
  | (some SDFormatResult.Success, env1, tr1) =>
      match writeSectorE fd dataStart (rootDirSectorBytes vol) env1 with
      | (r2, env2, tr2) => (r2, env2, tr1 ++ tr2)
  | (other, env1, tr1) => (other, env1, tr1)

/-- `sdFormatWriteRootDirectory` (SDFormat.cpp lines 1169-1196): zero the
64-sector root cluster at `dataStartSector`, then overwrite its first sector
with the volume-label directory entry. -/
def sdFormatWriteRootDirectory (fd : Int) (sectorCount : Nat) (label : List Nat)
    (env : Env) : Option SDFormatResult × Env × List Syscall :=
  writeRootDirectoryWith fd (dataStartSector sectorCount)
    (prepareVolumeLabel label) env

-- ---------------------------------------------------------------------------
-- SectorWriter class (SectorWriter.cpp).  `make` derives the geometry once;
-- the write operations use the stored fields and map every non-success
-- result of their underlying writes to `IOError`.
-- ---------------------------------------------------------------------------

/-- The instance fields of `sdFormat::SectorWriter`. -/
structure SectorWriterState where
  fd : Int
  sectorCount : Nat
  volumeLabel : List Nat
  mbrPartitionSectorCount : Nat
  fatSizeSectors : Nat
  fatStartSector : Nat
  dataStartSector : Nat
  freeClusterCount : Nat
deriving DecidableEq, Repr

/-- `SectorWriter::make` (SectorWriter.cpp lines 152-179).  The C++ asserts
`sectorCount >= 18432`; the claims carry that precondition. -/
def SectorWriter.make (fd : Int) (sectorCount : Nat) (label : List Nat) :
    SectorWriterState where
  fd := fd
  sectorCount := sectorCount
  volumeLabel := prepareVolumeLabel label
  mbrPartitionSectorCount := sectorCount - kPartitionAlignmentSectors
  fatSizeSectors := fatSizeSectorsSW sectorCount
  fatStartSector := fatStartSectorSW
  dataStartSector := dataStartSectorSW sectorCount
  freeClusterCount := freeClusterCountSW sectorCount

/-- `SectorWriter::writeFSInfo` (SectorWriter.cpp lines 313-327): a single
write of the FSInfo image at partition sector 1 (absolute sector 8193);
any non-success result is reported as `IOError`. -/
def SectorWriter.writeFSInfo (w : SectorWriterState) (env : Env) :
    Option SDFormatResult × Env × List Syscall :=
  match writeSectorsSWE w.fd (kPartitionAlignmentSectors + kFsInfoSector)
      (fsInfoBytes w.freeClusterCount) env with
  | (some SDFormatResult.Success, env1, tr1) => (some SDFormatResult.Success, env1, tr1)
  | (some _, env1, tr1) => (some SDFormatResult.IOError, env1, tr1)
  | (none, env1, tr1) => (none, env1, tr1)

/-- `SectorWriter::writeFat32Tables` (SectorWriter.cpp lines 329-363). -/
def SectorWriter.writeFat32Tables (w : SectorWriterState) (env : Env) :
    Option SDFormatResult × Env × List Syscall :=
  match zeroSectorsSW w.fd w.fatStartSector w.fatSizeSectors env with
  | (some SDFormatResult.Success, env1, tr1) =>
    match writeSectorsSWE w.fd w.fatStartSector fatHeaderSectorBytes env1 with
    | (some SDFormatResult.Success, env2, tr2) =>
      match zeroSectorsSW w.fd (u32 (w.fatStartSector + w.fatSizeSectors))
          w.fatSizeSectors env2 with
      | (some SDFormatResult.Success, env3, tr3) =>
        match writeSectorsSWE w.fd (u32 (w.fatStartSector + w.fatSizeSectors))
            fatHeaderSectorBytes env3 with
        | (some SDFormatResult.Success, env4, tr4) =>
            (some SDFormatResult.Success, env4, tr1 ++ tr2 ++ tr3 ++ tr4)
        | (some _, env4, tr4) =>
            (some SDFormatResult.IOError, env4, tr1 ++ tr2 ++ tr3 ++ tr4)
        | (none, env4, tr4) => (none, env4, tr1 ++ tr2 ++ tr3 ++ tr4)
      | (some _, env3, tr3) => (some SDFormatResult.IOError, env3, tr1 ++ tr2 ++ tr3)
      | (none, env3, tr3) => (none, env3, tr1 ++ tr2 ++ tr3)
    | (some _, env2, tr2) => (some SDFormatResult.IOError, env2, tr1 ++ tr2)
    | (none, env2, tr2) => (none, env2, tr1 ++ tr2)
  | (some _, env1, tr1) => (some SDFormatResult.IOError, env1, tr1)
  | (none, env1, tr1) => (none, env1, tr1)

/-- `SectorWriter::writeRootDirectory` (SectorWriter.cpp lines 365-388). -/
def SectorWriter.writeRootDirectory (w : SectorWriterState) (env : Env) :
    Option SDFormatResult × Env × List Syscall :=
  match zeroSectorsSW w.fd w.dataStartSector kSectorsPerCluster env with
  | (some SDFormatResult.Success, env1, tr1) =>
      match writeSectorsSWE w.fd w.dataStartSector
          (rootDirSectorBytes w.volumeLabel) env1 with
      | (some SDFormatResult.Success, env2, tr2) =>
          (some SDFormatResult.Success, env2, tr1 ++ tr2)
      | (some _, env2, tr2) => (some SDFormatResult.IOError, env2, tr1 ++ tr2)
      | (none, env2, tr2) => (none, env2, tr1 ++ tr2)
  | (some _, env1, tr1) => (some SDFormatResult.IOError, env1, tr1)
  | (none, env1, tr1) => (none, env1, tr1)

-- ---------------------------------------------------------------------------
-- Spec-side definitions, written from the specification's own words, for
-- comparison against the source-derived definitions above.
-- ---------------------------------------------------------------------------

/-- The spec's FAT-size formula in its own words (§4.1):
`sectorsPerFatEntryDensity = (256*64 + 2)/2` and
`fatSizeSectors = ceil((partitionSectorCount - 32) / density)` using integer
ceiling division `(a + b - 1) / b`, over unbounded integers. -/
def spec_fatSizeSectors (t : Nat) : Nat :=
  let density := (256 * 64 + 2) / 2
  (partitionSectorCount t - 32 + (density - 1)) / density

/-- The spec's `totalDataClusters` (§8): the number of whole clusters in the
data region, `floor((partitionSectorCount - 32 - 2*fatSizeSectors) / 64)`,
over unbounded integers. -/
def totalDataClusters (t : Nat) : Nat :=
  (partitionSectorCount t - 32 - 2 * spec_fatSizeSectors t) / 64

/-- The spec's free-cluster formula (§4.1) over unbounded integers:
`(partitionSectorCount - 32 - 2*fatSizeSectors) / 64 - 1`. -/
def spec_freeClusterCount (t : Nat) : Nat :=
  (partitionSectorCount t - 32 - 2 * spec_fatSizeSectors t) / 64 - 1

/-- The spec's `dataStartSector` formula (§4.1) over unbounded integers:
`8224 + 2*fatSizeSectors`. -/
def spec_dataStartSector (t : Nat) : Nat :=
  8224 + 2 * spec_fatSizeSectors t

-- ---------------------------------------------------------------------------
-- Helper predicates over syscall traces.
-- ---------------------------------------------------------------------------

/-- Does the trace contain a `write(2)` issued at byte offset `off`? -/
def writesAt (tr : List Syscall) (off : Nat) : Bool :=
  tr.any fun sc =>
    match sc with
    | Syscall.writeCall o _ => o == off
    | Syscall.seek _ => false

/-- The byte span `[o, o + len)` lies within the byte span of the `c`
sectors starting at sector `s`. -/
def inSectors (o len s c : Nat) : Prop :=
  s * kSectorSize ≤ o ∧ o + len ≤ (s + c) * kSectorSize

/-- The regions a formatting operation may write for device size `t`, per
the spec's on-disk layout table: the MBR sector, primary/backup VBR,
primary/backup FSInfo, the two FAT copies, and the root-directory cluster. -/
def allowedWrite (t o len : Nat) : Prop :=
  inSectors o len 0 1 ∨
  inSectors o len kPartitionAlignmentSectors 1 ∨
  inSectors o len (kPartitionAlignmentSectors + kBackupBootSector) 1 ∨
  inSectors o len (kPartitionAlignmentSectors + kFsInfoSector) 1 ∨
  inSectors o len (kPartitionAlignmentSectors + kBackupBootSector + 1) 1 ∨
  inSectors o len kFatStartSector (kFatCount * fatSizeSectors t) ∨
  inSectors o len (dataStartSector t) kSectorsPerCluster

/-- Every `write(2)` in the trace lands inside the allowed regions. -/
def traceAllowed (t : Nat) (tr : List Syscall) : Prop :=
  ∀ sc ∈ tr, ∀ o d, sc = Syscall.writeCall o d → allowedWrite t o d.length

-- ===========================================================================
-- Theorems
-- ===========================================================================

theorem prepareVolumeLabel_length (label : List Nat) :
    (prepareVolumeLabel label).length = 11 := by
  simp [prepareVolumeLabel]
  omega

theorem mbrBytes_length (t : Nat) : (mbrBytes t).length = 512 := by
  simp [mbrBytes, partitionEntry0Bytes, le16, le32, kMbrBootstrapSize]

theorem vbrBytes_length (t serial : Nat) (vol : List Nat) (h : vol.length = 11) :
    (vbrBytes t serial vol).length = 512 := by
  simp [vbrBytes, bpbBytes, le16, le32, h]

theorem fsInfoBytes_length (n : Nat) : (fsInfoBytes n).length = 512 := by
  simp [fsInfoBytes, le16, le32]

theorem fatHeaderSectorBytes_length : fatHeaderSectorBytes.length = 512 := by
  simp [fatHeaderSectorBytes, le32]

theorem rootDirSectorBytes_length (vol : List Nat) (h : vol.length = 11) :
    (rootDirSectorBytes vol).length = 512 := by
  simp [rootDirSectorBytes, le16, le32, h]

/-- Every `write(2)` issued by the retry loop stays within the byte span
`[pos, pos + data.length)` of the overall transfer. -/
theorem writeLoop_mem_bound (steps : List WriteStep) (pos : Nat) (data : List Nat)
    (o : Nat) (d : List Nat)
    (h : Syscall.writeCall o d ∈ (writeLoop steps pos data).2) :
    pos ≤ o ∧ o + d.length ≤ pos + data.length := by
  induction steps generalizing pos data with
  | nil =>
    cases data with
    | nil => simp [writeLoop] at h
    | cons b bs => simp [writeLoop] at h
  | cons s rest ih =>
    cases data with
    | nil => simp [writeLoop] at h
    | cons b bs =>
      cases s with
      | wrote n =>
        by_cases hn : n ≤ (b :: bs).length
        · simp only [writeLoop, if_pos hn, List.mem_cons] at h
          rcases h with h | h
          · cases h; simp
          · have := ih (pos + n) ((b :: bs).drop n) h
            have hlen : ((b :: bs).drop n).length = (b :: bs).length - n := by
              simp [List.length_drop]
            omega
        · simp only [writeLoop, if_neg hn, List.mem_cons, List.not_mem_nil,
            or_false] at h
          cases h; simp
      | eintr =>
        simp only [writeLoop, List.mem_cons] at h
        rcases h with h | h
        · cases h; simp
        · exact ih pos (b :: bs) h
      | fail =>
        simp only [writeLoop, List.mem_cons, List.not_mem_nil, or_false] at h
        cases h; simp

/-- Every `write(2)` issued by the post-guard body stays within the byte
span of the requested transfer. -/
theorem writeBody_mem_bound (offset : Nat) (data : List Nat) (b : CallBehavior)
    (o : Nat) (d : List Nat)
    (h : Syscall.writeCall o d ∈ (writeBody offset data b).2) :
    offset ≤ o ∧ o + d.length ≤ offset + data.length := by
  cases b with
  | seekFail => simp [writeBody] at h
  | ok =>
    simp only [writeBody, List.mem_cons] at h
    rcases h with h | h
    · cases h
    · exact writeLoop_mem_bound _ _ _ _ _ h
  | io steps =>
    simp only [writeBody, List.mem_cons] at h
    rcases h with h | h
    · cases h
    · exact writeLoop_mem_bound _ _ _ _ _ h

/-- Every `write(2)` issued by the C API `writeBytes` stays within the byte
span of the requested transfer. -/
theorem writeBytes_mem_bound (fd : Int) (offset : Nat) (data : List Nat)
    (b : CallBehavior) (o : Nat) (d : List Nat)
    (h : Syscall.writeCall o d ∈ (writeBytes fd offset data b).2) :
    offset ≤ o ∧ o + d.length ≤ offset + data.length := by
  unfold writeBytes at h
  split at h
  · simp at h
  · split at h
    · simp at h
    · exact writeBody_mem_bound _ _ _ _ _ h

/-- Every `write(2)` issued by `SectorWriter::writeBytes` stays within the
byte span of the requested transfer. -/
theorem writeBytesSW_mem_bound (fd : Int) (offset : Nat) (data : List Nat)
    (b : CallBehavior) (o : Nat) (d : List Nat)
    (h : Syscall.writeCall o d ∈ (writeBytesSW fd offset data b).2) :
    offset ≤ o ∧ o + d.length ≤ offset + data.length := by
  unfold writeBytesSW at h
  split at h
  · simp at h
  · exact writeBody_mem_bound _ _ _ _ _ h

/-- On the ideal device, a non-empty `writeBytes` with a valid handle
succeeds with one seek and one full write. -/
theorem writeBytes_ok (fd : Int) (offset : Nat) (data : List Nat)
    (hfd : 0 ≤ fd) (hd : data ≠ []) :
    writeBytes fd offset data CallBehavior.ok =
      (some SDFormatResult.Success,
        [Syscall.seek offset, Syscall.writeCall offset data]) := by
  unfold writeBytes writeBody
  rw [if_neg (by simp [hd]), if_neg (by omega)]
  cases data with
  | nil => exact absurd rfl hd
  | cons b bs => simp [writeLoop, List.drop_length]

/-- On the ideal device, a non-empty `SectorWriter::writeBytes` with a valid
handle succeeds with one seek and one full write. -/
theorem writeBytesSW_ok (fd : Int) (offset : Nat) (data : List Nat)
    (hfd : 0 ≤ fd) (hd : data ≠ []) :
    writeBytesSW fd offset data CallBehavior.ok =
      (some SDFormatResult.Success,
        [Syscall.seek offset, Syscall.writeCall offset data]) := by
  unfold writeBytesSW writeBody
  rw [if_neg (by simp [hd]; omega)]
  cases data with
  | nil => exact absurd rfl hd
  | cons b bs => simp [writeLoop, List.drop_length]
/-- On the ideal (empty) environment, `zeroSectors` succeeds and leaves the
environment empty. -/
theorem zeroSectors_nil (fd : Int) (hfd : 0 ≤ fd) (s c : Nat) :
    ∃ tr, zeroSectors fd s c [] = (some SDFormatResult.Success, ([], tr)) := by
  induction c using Nat.strong_induction_on generalizing s with
  | _ c ih =>
    by_cases hc : c = 0
    · exact ⟨[], by rw [zeroSectors, if_pos hc]⟩
    · have hne : List.replicate (min c kSectorsPerCluster * kSectorSize) 0 ≠ [] := by
        simp [kSectorsPerCluster, kSectorSize]
        omega
      have hwb : writeBytesE fd (s * kSectorSize)
          (List.replicate (min c kSectorsPerCluster * kSectorSize) 0) [] =
          (some SDFormatResult.Success, ([],
            [Syscall.seek (s * kSectorSize),
             Syscall.writeCall (s * kSectorSize)
               (List.replicate (min c kSectorsPerCluster * kSectorSize) 0)])) := by
        simp [writeBytesE, writeBytes_ok fd _ _ hfd hne]
      obtain ⟨tr2, h2⟩ := ih (c - min c kSectorsPerCluster)
        (by simp [kSectorsPerCluster]; omega) (s + min c kSectorsPerCluster)
      refine ⟨[Syscall.seek (s * kSectorSize),
               Syscall.writeCall (s * kSectorSize)
                 (List.replicate (min c kSectorsPerCluster * kSectorSize) 0)] ++ tr2, ?_⟩
      rw [zeroSectors, if_neg hc]
      simp only [hwb, h2]

/-- Every `write(2)` issued by `zeroSectors fd s c` stays within the byte
span of the `c` sectors starting at sector `s`. -/
theorem zeroSectors_mem_bound (fd : Int) (s c : Nat) (env : Env)
    (o : Nat) (d : List Nat)
    (h : Syscall.writeCall o d ∈ (zeroSectors fd s c env).2.2) :
    s * kSectorSize ≤ o ∧ o + d.length ≤ (s + c) * kSectorSize := by
  induction c using Nat.strong_induction_on generalizing s env with
  | _ c ih =>
    rw [zeroSectors] at h
    by_cases hc : c = 0
    · simp [hc] at h
    · simp only [if_neg hc] at h
      rcases hx : writeBytesE fd (s * kSectorSize)
          (List.replicate (min c kSectorsPerCluster * kSectorSize) 0) env with ⟨r1, env1, tr1⟩
      rw [hx] at h
      have hx' := hx
      simp only [writeBytesE, Prod.mk.injEq] at hx'
      have hmem : Syscall.writeCall o d ∈ tr1 →
          s * kSectorSize ≤ o ∧ o + d.length ≤ (s + c) * kSectorSize := by
        intro hm
        rw [← hx'.2.2] at hm
        have hb := writeBytes_mem_bound fd (s * kSectorSize) _ _ o d hm
        simp only [List.length_replicate, kSectorSize, kSectorsPerCluster] at hb ⊢
        omega
      rcases r1 with _ | res
      · exact hmem (by simpa using h)
      · cases res
        · simp only [List.mem_append] at h
          rcases h with h | h
          · exact hmem h
          · have hb := ih (c - min c kSectorsPerCluster)
              (by simp [kSectorsPerCluster]; omega)
              (s + min c kSectorsPerCluster) env1 h
            simp only [kSectorSize, kSectorsPerCluster] at hb ⊢
            omega
        all_goals exact hmem (by simpa using h)

theorem ne_nil_of_length_512 {l : List Nat} (h : l.length = 512) : l ≠ [] := by
  intro he
  rw [he] at h
  simp at h

/-- On the ideal (empty) environment, a sector write of a non-empty image
succeeds with one seek and one full write. -/
theorem writeSectorE_nil (fd : Int) (lba : Nat) (data : List Nat)
    (hfd : 0 ≤ fd) (hd : data ≠ []) :
    writeSectorE fd lba data [] =
      (some SDFormatResult.Success, ([],
        [Syscall.seek (lba * kSectorSize),
         Syscall.writeCall (lba * kSectorSize) data])) := by
  simp [writeSectorE, writeBytesE, writeBytes_ok fd _ data hfd hd]

/-- On the ideal device, `writeFSInfoWith` succeeds, writing its image at
absolute sectors 8193 and 8199. -/
theorem writeFSInfoWith_nil (fd : Int) (fsinfo : List Nat)
    (hfd : 0 ≤ fd) (hne : fsinfo ≠ []) :
    writeFSInfoWith fd fsinfo [] =
      (some SDFormatResult.Success, ([],
        [Syscall.seek (8193 * 512), Syscall.writeCall (8193 * 512) fsinfo,
         Syscall.seek (8199 * 512), Syscall.writeCall (8199 * 512) fsinfo])) := by
  have hw : ∀ lba, writeSectorE fd lba fsinfo [] =
      (some SDFormatResult.Success, ([],
        [Syscall.seek (lba * kSectorSize),
         Syscall.writeCall (lba * kSectorSize) fsinfo])) :=
    fun lba => writeSectorE_nil fd lba _ hfd hne
  unfold writeFSInfoWith
  simp only [hw]
  simp [kPartitionAlignmentSectors, kFsInfoSector, kBackupBootSector, kSectorSize]

/-- On the ideal device, `sdFormatWriteFSInfo` succeeds, writing the FSInfo
image at absolute sectors 8193 and 8199. -/
theorem sdFormatWriteFSInfo_nil (fd : Int) (t : Nat) (hfd : 0 ≤ fd) :
    sdFormatWriteFSInfo fd t [] =
      (some SDFormatResult.Success, ([],
        [Syscall.seek (8193 * 512),
         Syscall.writeCall (8193 * 512) (fsInfoBytes (freeClusterCount t)),
         Syscall.seek (8199 * 512),
         Syscall.writeCall (8199 * 512) (fsInfoBytes (freeClusterCount t))])) :=
  writeFSInfoWith_nil fd _ hfd
    (ne_nil_of_length_512 (fsInfoBytes_length (freeClusterCount t)))

/-- On the ideal device, `writeVBRWith` succeeds, writing the identical
image at absolute sectors 8192 and 8198. -/
theorem writeVBRWith_nil (fd : Int) (vbr : List Nat)
    (hfd : 0 ≤ fd) (hne : vbr ≠ []) :
    writeVBRWith fd vbr [] =
      (some SDFormatResult.Success, ([],
        [Syscall.seek (8192 * 512), Syscall.writeCall (8192 * 512) vbr,
         Syscall.seek (8198 * 512), Syscall.writeCall (8198 * 512) vbr])) := by
  have hw : ∀ lba, writeSectorE fd lba vbr [] =
      (some SDFormatResult.Success, ([],
        [Syscall.seek (lba * kSectorSize),
         Syscall.writeCall (lba * kSectorSize) vbr])) :=
    fun lba => writeSectorE_nil fd lba _ hfd hne
  unfold writeVBRWith
  simp only [hw]
  simp [kPartitionAlignmentSectors, kBackupBootSector, kSectorSize]

/-- On the ideal device, `sdFormatWriteVolumeBootRecord` succeeds, writing
the identical VBR image at absolute sectors 8192 and 8198. -/
theorem sdFormatWriteVolumeBootRecord_nil (fd : Int) (t serial : Nat)
    (label : List Nat) (hfd : 0 ≤ fd) :
    sdFormatWriteVolumeBootRecord fd t serial label [] =
      (some SDFormatResult.Success, ([],
        [Syscall.seek (8192 * 512),
         Syscall.writeCall (8192 * 512)
           (vbrBytes t serial (prepareVolumeLabel label)),
         Syscall.seek (8198 * 512),
         Syscall.writeCall (8198 * 512)
           (vbrBytes t serial (prepareVolumeLabel label))])) :=
  writeVBRWith_nil fd _ hfd
    (ne_nil_of_length_512 (vbrBytes_length t serial _ (prepareVolumeLabel_length label)))

/-- On the ideal device, `writeFat32TablesWith` succeeds; its trace is the
zeroing of FAT 1, the header write at sector 8224, the zeroing of FAT 2, and
the header write at sector `8224 + fatSize`, the sum narrowed to `uint32_t`
as at the source's call sites. -/
theorem writeFat32TablesWith_nil (fd : Int) (F : Nat) (hfd : 0 ≤ fd) :
    ∃ ztr1 ztr2, writeFat32TablesWith fd F [] =
      (some SDFormatResult.Success, ([],
        ztr1 ++
        [Syscall.seek (kFatStartSector * kSectorSize),
         Syscall.writeCall (kFatStartSector * kSectorSize) fatHeaderSectorBytes] ++
        ztr2 ++
        [Syscall.seek (u32 (kFatStartSector + F) * kSectorSize),
         Syscall.writeCall (u32 (kFatStartSector + F) * kSectorSize)
           fatHeaderSectorBytes])) := by
  have hne := ne_nil_of_length_512 fatHeaderSectorBytes_length
  have hw : ∀ lba, writeSectorE fd lba fatHeaderSectorBytes [] =
      (some SDFormatResult.Success, ([],
        [Syscall.seek (lba * kSectorSize),
         Syscall.writeCall (lba * kSectorSize) fatHeaderSectorBytes])) :=
    fun lba => writeSectorE_nil fd lba _ hfd hne
  obtain ⟨ztr1, hz1⟩ := zeroSectors_nil fd hfd kFatStartSector F
  obtain ⟨ztr2, hz2⟩ := zeroSectors_nil fd hfd (u32 (kFatStartSector + F)) F
  refine ⟨ztr1, ztr2, ?_⟩
  unfold writeFat32TablesWith
  rw [hz1]
  simp only [hw]
  rw [hz2]
  simp only [hw]

/-- On the ideal device, `sdFormatWriteFat32Tables` succeeds; its trace is
the zeroing of FAT 1, the header write at sector 8224, the zeroing of FAT 2,
and the header write at sector `8224 + fatSizeSectors`, the sum narrowed to
`uint32_t` as in the source. -/
theorem sdFormatWriteFat32Tables_nil (fd : Int) (t : Nat) (hfd : 0 ≤ fd) :
    ∃ ztr1 ztr2, sdFormatWriteFat32Tables fd t [] =
      (some SDFormatResult.Success, ([],
        ztr1 ++
        [Syscall.seek (kFatStartSector * kSectorSize),
         Syscall.writeCall (kFatStartSector * kSectorSize) fatHeaderSectorBytes] ++
        ztr2 ++
        [Syscall.seek (u32 (kFatStartSector + fatSizeSectors t) * kSectorSize),
         Syscall.writeCall (u32 (kFatStartSector + fatSizeSectors t) * kSectorSize)
           fatHeaderSectorBytes])) :=
  writeFat32TablesWith_nil fd (fatSizeSectors t) hfd

/-- On the ideal device, `writeRootDirectoryWith` succeeds; its trace is the
zeroing of the 64-sector cluster at `dataStart` followed by the directory
sector write there. -/
theorem writeRootDirectoryWith_nil (fd : Int) (D : Nat) (vol : List Nat)
    (hfd : 0 ≤ fd) (hne : rootDirSectorBytes vol ≠ []) :
    ∃ ztr, writeRootDirectoryWith fd D vol [] =
      (some SDFormatResult.Success, ([],
        ztr ++
        [Syscall.seek (D * kSectorSize),
         Syscall.writeCall (D * kSectorSize) (rootDirSectorBytes vol)])) := by
  obtain ⟨ztr, hz⟩ := zeroSectors_nil fd hfd D kSectorsPerCluster
  have hw : writeSectorE fd D (rootDirSectorBytes vol) [] =
      (some SDFormatResult.Success, ([],
        [Syscall.seek (D * kSectorSize),
         Syscall.writeCall (D * kSectorSize) (rootDirSectorBytes vol)])) :=
    writeSectorE_nil fd _ _ hfd hne
  refine ⟨ztr, ?_⟩
  unfold writeRootDirectoryWith
  rw [hz]
  simp only [hw]

/-- On the ideal device, `sdFormatWriteRootDirectory` succeeds; its trace is
the zeroing of the 64-sector root cluster followed by the root-directory
sector write, both at `dataStartSector`. -/
theorem sdFormatWriteRootDirectory_nil (fd : Int) (t : Nat) (label : List Nat)
    (hfd : 0 ≤ fd) :
    ∃ ztr, sdFormatWriteRootDirectory fd t label [] =
      (some SDFormatResult.Success, ([],
        ztr ++
        [Syscall.seek (dataStartSector t * kSectorSize),
         Syscall.writeCall (dataStartSector t * kSectorSize)
           (rootDirSectorBytes (prepareVolumeLabel label))])) :=
  writeRootDirectoryWith_nil fd (dataStartSector t) (prepareVolumeLabel label) hfd
    (ne_nil_of_length_512 (rootDirSectorBytes_length _ (prepareVolumeLabel_length label)))

-- ---------------------------------------------------------------------------
-- Volume label lemmas (C8)
-- ---------------------------------------------------------------------------

theorem toUpperByte_idem (c : Nat) : toUpperByte (toUpperByte c) = toUpperByte c := by
  simp only [toUpperByte]
  split_ifs <;> omega

theorem toUpperByte_space : toUpperByte 32 = 32 := by decide

theorem prepareVolumeLabel_idem (s : List Nat) :
    prepareVolumeLabel (prepareVolumeLabel s) = prepareVolumeLabel s := by
  have h11 := prepareVolumeLabel_length s
  have htake : (prepareVolumeLabel s).take 11 = prepareVolumeLabel s :=
    List.take_of_length_le (by omega)
  have hcomp : toUpperByte ∘ toUpperByte = toUpperByte := funext toUpperByte_idem
  conv_lhs => rw [prepareVolumeLabel]
  rw [htake, h11]
  simp only [Nat.sub_self, List.replicate, List.append_nil]
  conv_lhs => rw [prepareVolumeLabel]
  rw [List.map_append, List.map_map, hcomp, List.map_replicate, toUpperByte_space]
  rw [prepareVolumeLabel]

theorem prepareVolumeLabel_of_long (s : List Nat) (h : 11 < s.length) :
    prepareVolumeLabel s = (s.take 11).map toUpperByte := by
  rw [prepareVolumeLabel]
  have : 11 - s.length = 0 := by omega
  rw [this]
  simp

/-- C8: volume-label normalization is idempotent; `normalize("r4")` is
`"R4"` followed by nine spaces (11 characters); inputs longer than 11
characters are truncated to their first 11 characters, uppercased. -/
theorem c8_label_normalization :
    (∀ s : List Nat, prepareVolumeLabel (prepareVolumeLabel s) = prepareVolumeLabel s) ∧
    prepareVolumeLabel [114, 52] =
      [82, 52, 32, 32, 32, 32, 32, 32, 32, 32, 32] ∧
    (∀ s : List Nat, 11 < s.length →
      prepareVolumeLabel s = (s.take 11).map toUpperByte) :=
  ⟨prepareVolumeLabel_idem, by decide, prepareVolumeLabel_of_long⟩

/-- C8 witness: the theorem applied to `"r4"` and to the 22-byte input
`"ThisIsWayTooLongALabel"`. -/
theorem c8_label_normalization_witness :
    prepareVolumeLabel (prepareVolumeLabel [114, 52]) = prepareVolumeLabel [114, 52] ∧
    (11 < ([84, 104, 105, 115, 73, 115, 87, 97, 121, 84, 111, 111, 76, 111,
            110, 103, 65, 76, 97, 98, 101, 108] : List Nat).length ∧
     prepareVolumeLabel
        [84, 104, 105, 115, 73, 115, 87, 97, 121, 84, 111, 111, 76, 111,
         110, 103, 65, 76, 97, 98, 101, 108] =
      (([84, 104, 105, 115, 73, 115, 87, 97, 121, 84, 111, 111, 76, 111,
         110, 103, 65, 76, 97, 98, 101, 108] : List Nat).take 11).map toUpperByte) :=
  ⟨c8_label_normalization.1 [114, 52], by decide,
   c8_label_normalization.2.2 _ (by decide)⟩

-- ---------------------------------------------------------------------------
-- C3: the FAT-size formula under-allocates at totalSectors = 24610
-- ---------------------------------------------------------------------------

/-- C3: at the valid device size 24610 the derived FAT holds 256 entries but
the volume's data clusters plus the two reserved entries need 257, so the
FAT under-allocates, contradicting the claim (and the source's own comment
"will never be too small"). -/
theorem c3_fat_underallocates_at_24610 :
    18432 ≤ 24610 ∧
    128 * fatSizeSectors 24610 = 256 ∧
    (freeClusterCount 24610 + 1) + 2 = 257 ∧
    ¬ ((freeClusterCount 24610 + 1) + 2 ≤ 128 * fatSizeSectors 24610) := by
  decide

-- ---------------------------------------------------------------------------
-- C1: the FAT-size formula
-- ---------------------------------------------------------------------------

/-- C1 counterexample: at the valid totalSectors 24609 the FAT size stored
and used by `SectorWriter::make` is 3, while the spec's ceiling formula with
density 8193 gives 2 — the formula is not the value "used everywhere". -/
theorem c1_counterexample :
    18432 ≤ 24609 ∧
    spec_fatSizeSectors 24609 = 2 ∧
    fatSizeSectorsSW 24609 = 3 ∧
    (SectorWriter.make 3 24609 []).fatSizeSectors = 3 ∧
    fatSizeSectorsSW 24609 ≠ spec_fatSizeSectors 24609 := by
  decide

set_option maxHeartbeats 1600000 in
/-- C1 (amended): for every valid totalSectors, the C API's `fatSizeSectors`
equals the spec formula `ceil((partitionSectorCount - 32)/8193)` (narrowed
mod 2^32 at the return), that value is a true ceiling of the allocatable
sectors by the density 8193, it is stored as `fatSize32` (VBR bytes 36-39),
and it positions both FAT-copy header writes of `sdFormatWriteFat32Tables`
(the backup at the `uint32_t`-wrapped sector `8224 + fatSize`);
`SectorWriter::make` instead derives `ceil(4*(partitionSectorCount-32)/32768)`,
which can differ (see the counterexample). -/
theorem c1_fatSize_formula (t serial : Nat) (label : List Nat) (h : 18432 ≤ t) :
    fatSizeSectors t = u32 (spec_fatSizeSectors t) ∧
    8193 * (spec_fatSizeSectors t - 1) < partitionSectorCount t - 32 ∧
    partitionSectorCount t - 32 ≤ 8193 * spec_fatSizeSectors t ∧
    ((vbrBytes t serial (prepareVolumeLabel label)).drop 36).take 4 =
      le32 (fatSizeSectors t) ∧
    Syscall.writeCall (kFatStartSector * kSectorSize) fatHeaderSectorBytes ∈
      (sdFormatWriteFat32Tables 3 t []).2.2 ∧
    Syscall.writeCall (u32 (kFatStartSector + fatSizeSectors t) * kSectorSize)
      fatHeaderSectorBytes ∈ (sdFormatWriteFat32Tables 3 t []).2.2 := by
  refine ⟨rfl, ?_, ?_, rfl, ?_, ?_⟩
  · simp only [spec_fatSizeSectors, partitionSectorCount, kPartitionAlignmentSectors]
    omega
  · simp only [spec_fatSizeSectors, partitionSectorCount, kPartitionAlignmentSectors]
    omega
  · obtain ⟨z1, z2, heq⟩ := sdFormatWriteFat32Tables_nil 3 t (by decide)
    rw [heq]
    simp
  · obtain ⟨z1, z2, heq⟩ := sdFormatWriteFat32Tables_nil 3 t (by decide)
    rw [heq]
    simp

/-- C1 witness: the amended theorem applied at totalSectors 8388608. -/
theorem c1_fatSize_formula_witness :
    18432 ≤ 8388608 ∧
    (fatSizeSectors 8388608 = u32 (spec_fatSizeSectors 8388608) ∧
     8193 * (spec_fatSizeSectors 8388608 - 1) < partitionSectorCount 8388608 - 32 ∧
     partitionSectorCount 8388608 - 32 ≤ 8193 * spec_fatSizeSectors 8388608 ∧
     ((vbrBytes 8388608 0 (prepareVolumeLabel [])).drop 36).take 4 =
       le32 (fatSizeSectors 8388608) ∧
     Syscall.writeCall (kFatStartSector * kSectorSize) fatHeaderSectorBytes ∈
       (sdFormatWriteFat32Tables 3 8388608 []).2.2 ∧
     Syscall.writeCall (u32 (kFatStartSector + fatSizeSectors 8388608) * kSectorSize)
       fatHeaderSectorBytes ∈ (sdFormatWriteFat32Tables 3 8388608 []).2.2) :=
  ⟨by decide, c1_fatSize_formula 8388608 0 [] (by decide)⟩

-- ---------------------------------------------------------------------------
-- C4: the free-cluster-count formula
-- ---------------------------------------------------------------------------

theorem u32_eq_of_lt {a : Nat} (h : a < 4294967296) : u32 a = a :=
  Nat.mod_eq_of_lt h

theorem sub32_eq_sub {a b : Nat} (ha : a < 4294967296) (hb : b ≤ a) :
    sub32 a b = a - b := by
  simp only [sub32, u32]
  omega

/-- Exact characterization of `freeClusterCount` for partition sizes that
fit in 32 bits: the intermediate narrowings are the identity there. -/
theorem freeClusterCount_exact (t : Nat) (h : 18432 ≤ t)
    (h32 : partitionSectorCount t < 4294967296) :
    freeClusterCount t =
      (partitionSectorCount t - 32 - 2 * spec_fatSizeSectors t) / 64 - 1 ∧
    1 ≤ (partitionSectorCount t - 32 - 2 * spec_fatSizeSectors t) / 64 ∧
    fatSizeSectors t = spec_fatSizeSectors t := by
  have hple : 10240 ≤ partitionSectorCount t := by
    simp only [partitionSectorCount, kPartitionAlignmentSectors]
    omega
  have hdiv : (partitionSectorCount t - 32 + 8192) / 8193 = spec_fatSizeSectors t := rfl
  have hwlt : spec_fatSizeSectors t < 4294967296 := by omega
  have hroom : 2 * spec_fatSizeSectors t + 64 ≤ partitionSectorCount t - 32 := by omega
  have hfeq : fatSizeSectors t = spec_fatSizeSectors t := by
    have h1 : fatSizeSectors t = u32 ((partitionSectorCount t - 32 + 8192) / 8193) := rfl
    rw [h1, hdiv]
    exact u32_eq_of_lt hwlt
  have hfc : freeClusterCount t =
      sub32 ((sub32 (sub32 (u32 (partitionSectorCount t)) 32)
        (u32 (2 * fatSizeSectors t))) / 64) 1 := rfl
  have h2wlt : 2 * spec_fatSizeSectors t < 4294967296 := by omega
  have hD1 : 1 ≤ (partitionSectorCount t - 32 - 2 * spec_fatSizeSectors t) / 64 := by
    omega
  have hDlt : (partitionSectorCount t - 32 - 2 * spec_fatSizeSectors t) / 64 <
      4294967296 := by omega
  rw [hfc, hfeq, u32_eq_of_lt h32,
    @sub32_eq_sub (partitionSectorCount t) 32 h32 (by omega),
    u32_eq_of_lt h2wlt,
    @sub32_eq_sub (partitionSectorCount t - 32) (2 * spec_fatSizeSectors t)
      (by omega) (by omega),
    @sub32_eq_sub ((partitionSectorCount t - 32 - 2 * spec_fatSizeSectors t) / 64) 1
      hDlt hD1]
  exact ⟨rfl, hD1, rfl⟩

/-- C4 counterexample: at the valid totalSectors 2^33 + 8192 the code's
`freeClusterCount` (which narrows `partitionSectorCount` to 32 bits before
subtracting) differs from the claimed unbounded-integer formula. -/
theorem c4_counterexample :
    18432 ≤ 8589942784 ∧
    freeClusterCount 8589942784 = 67076098 ∧
    (partitionSectorCount 8589942784 - 32 - 2 * fatSizeSectors 8589942784) / 64 - 1 =
      134184962 ∧
    freeClusterCount 8589942784 ≠
      (partitionSectorCount 8589942784 - 32 - 2 * fatSizeSectors 8589942784) / 64 - 1 := by
  decide

/-- C4 (amended): for every valid totalSectors whose partition sector count
fits in 32 bits, `freeClusterCount` equals
`(partitionSectorCount - 32 - 2*fatSizeSectors)/64 - 1` over unbounded
integers, and `freeClusterCount + 1` equals the spec's `totalDataClusters`. -/
theorem c4_freeClusterCount_formula (t : Nat) (h : 18432 ≤ t)
    (h32 : partitionSectorCount t < 4294967296) :
    freeClusterCount t =
      (partitionSectorCount t - 32 - 2 * fatSizeSectors t) / 64 - 1 ∧
    freeClusterCount t + 1 = totalDataClusters t := by
  obtain ⟨h1, h2, h3⟩ := freeClusterCount_exact t h h32
  have htd : totalDataClusters t =
      (partitionSectorCount t - 32 - 2 * spec_fatSizeSectors t) / 64 := rfl
  constructor
  · rw [h3, h1]
  · rw [h1, htd]
    omega

/-- C4 witness: the amended theorem applied at totalSectors 8388608, where
`freeClusterCount = 130910` and `totalDataClusters = 130911`. -/
theorem c4_freeClusterCount_formula_witness :
    18432 ≤ 8388608 ∧ partitionSectorCount 8388608 < 4294967296 ∧
    (freeClusterCount 8388608 =
      (partitionSectorCount 8388608 - 32 - 2 * fatSizeSectors 8388608) / 64 - 1 ∧
     freeClusterCount 8388608 + 1 = totalDataClusters 8388608) :=
  ⟨by decide, by decide, c4_freeClusterCount_formula 8388608 (by decide) (by decide)⟩

-- ---------------------------------------------------------------------------
-- C5: 64-bit accumulation and 32-bit narrowing
-- ---------------------------------------------------------------------------

/-- C5 counterexample: at the valid totalSectors 2^33 + 16384 the exact
free-cluster count fits in 32 bits, yet the stored `freeClusterCount`
differs, because the source narrows `partitionSectorCount` to `uint32_t`
before the subtraction — not only at the final store. -/
theorem c5_counterexample :
    18432 ≤ 8589950976 ∧
    spec_freeClusterCount 8589950976 = 134185090 ∧
    spec_freeClusterCount 8589950976 < 4294967296 ∧
    freeClusterCount 8589950976 = 67076226 ∧
    freeClusterCount 8589950976 ≠ spec_freeClusterCount 8589950976 := by
  decide

/-- C5 (amended): for every valid totalSectors, `totalSectors32`,
`fatSize32` and `dataStartSector` equal the unbounded-integer formulas
whenever those exact values fit in 32 bits; `freeClusterCount` does so only
under the stronger premise that `partitionSectorCount` itself fits in
32 bits, because of its intermediate narrowing. -/
theorem c5_32bit_narrowing (t : Nat) (h : 18432 ≤ t) :
    (partitionSectorCount t < 4294967296 →
      u32 (partitionSectorCount t) = partitionSectorCount t) ∧
    (spec_fatSizeSectors t < 4294967296 →
      fatSizeSectors t = spec_fatSizeSectors t) ∧
    (spec_dataStartSector t < 4294967296 →
      dataStartSector t = spec_dataStartSector t) ∧
    (partitionSectorCount t < 4294967296 →
      freeClusterCount t = spec_freeClusterCount t) := by
  refine ⟨fun h1 => Nat.mod_eq_of_lt h1, fun h2 => ?_, fun h3 => ?_, fun h4 => ?_⟩
  · calc fatSizeSectors t = u32 (spec_fatSizeSectors t) := rfl
      _ = spec_fatSizeSectors t := Nat.mod_eq_of_lt h2
  · have heq : fatSizeSectors t = u32 (spec_fatSizeSectors t) := rfl
    simp only [dataStartSector, spec_dataStartSector, heq, u32, kFatStartSector,
      kPartitionAlignmentSectors, kReservedSectors, kFatCount] at *
    omega
  · obtain ⟨h1, _, _⟩ := freeClusterCount_exact t h h4
    have hsp : spec_freeClusterCount t =
        (partitionSectorCount t - 32 - 2 * spec_fatSizeSectors t) / 64 - 1 := rfl
    rw [h1, hsp]

/-- C5 witness: the amended theorem applied at totalSectors 8388608 with all
four premises discharged. -/
theorem c5_32bit_narrowing_witness :
    18432 ≤ 8388608 ∧
    partitionSectorCount 8388608 < 4294967296 ∧
    spec_fatSizeSectors 8388608 < 4294967296 ∧
    spec_dataStartSector 8388608 < 4294967296 ∧
    u32 (partitionSectorCount 8388608) = partitionSectorCount 8388608 ∧
    fatSizeSectors 8388608 = spec_fatSizeSectors 8388608 ∧
    dataStartSector 8388608 = spec_dataStartSector 8388608 ∧
    freeClusterCount 8388608 = spec_freeClusterCount 8388608 := by
  have hc := c5_32bit_narrowing 8388608 (by decide)
  exact ⟨by decide, by decide, by decide, by decide,
    hc.1 (by decide), hc.2.1 (by decide), hc.2.2.1 (by decide), hc.2.2.2 (by decide)⟩

-- ---------------------------------------------------------------------------
-- C6: writeBytes guard behavior
-- ---------------------------------------------------------------------------

/-- C6 counterexample: `SectorWriter::writeBytes` with a valid handle and an
empty span returns `InvalidDevice` — not a no-op success as claimed. -/
theorem c6_counterexample :
    (writeBytesSW 3 0 [] CallBehavior.ok).1 = some SDFormatResult.InvalidDevice ∧
    (writeBytesSW 3 0 [] CallBehavior.ok).1 ≠ some SDFormatResult.Success := by
  decide

/-- C6 (amended): the C API's `writeBytes` treats an empty span as a no-op
success for every handle (no seek, no write) and returns `InvalidDevice`
for non-empty input on a negative descriptor; `SectorWriter::writeBytes`
instead returns `InvalidDevice` (with no seek and no write) whenever the
handle is negative or the span is empty, including empty input on a valid
handle. -/
theorem c6_writeBytes_guards :
    (∀ (fd : Int) (offset : Nat) (b : CallBehavior),
      writeBytes fd offset [] b = (some SDFormatResult.Success, [])) ∧
    (∀ (fd : Int) (offset : Nat) (data : List Nat) (b : CallBehavior),
      fd < 0 → data ≠ [] →
      writeBytes fd offset data b = (some SDFormatResult.InvalidDevice, [])) ∧
    (∀ (fd : Int) (offset : Nat) (b : CallBehavior),
      writeBytesSW fd offset [] b = (some SDFormatResult.InvalidDevice, [])) ∧
    (∀ (fd : Int) (offset : Nat) (data : List Nat) (b : CallBehavior),
      fd < 0 →
      writeBytesSW fd offset data b = (some SDFormatResult.InvalidDevice, [])) := by
  refine ⟨fun fd o b => by simp [writeBytes], fun fd o data b hfd hd => ?_,
    fun fd o b => by simp [writeBytesSW], fun fd o data b hfd => by
      simp [writeBytesSW, hfd]⟩
  cases data with
  | nil => exact absurd rfl hd
  | cons x xs => simp [writeBytes, hfd]

/-- C6 witness: the amended theorem applied at concrete handles and spans. -/
theorem c6_writeBytes_guards_witness :
    writeBytes 3 100 [] CallBehavior.ok = (some SDFormatResult.Success, []) ∧
    writeBytes (-1) 100 [7] CallBehavior.ok = (some SDFormatResult.InvalidDevice, []) ∧
    writeBytesSW 3 100 [] CallBehavior.ok = (some SDFormatResult.InvalidDevice, []) ∧
    writeBytesSW (-1) 100 [7] CallBehavior.ok = (some SDFormatResult.InvalidDevice, []) :=
  ⟨c6_writeBytes_guards.1 3 100 _,
   c6_writeBytes_guards.2.1 (-1) 100 [7] _ (by decide) (by decide),
   c6_writeBytes_guards.2.2.1 3 100 _,
   c6_writeBytes_guards.2.2.2 (-1) 100 [7] _ (by decide)⟩

-- ---------------------------------------------------------------------------
-- C10: SectorWriter error mapping
-- ---------------------------------------------------------------------------

theorem writeBytesSW_neg (fd : Int) (offset : Nat) (data : List Nat)
    (b : CallBehavior) (hfd : fd < 0) :
    writeBytesSW fd offset data b = (some SDFormatResult.InvalidDevice, []) := by
  simp [writeBytesSW, hfd]

theorem writeSectorsSWE_neg (fd : Int) (lba : Nat) (data : List Nat) (env : Env)
    (hfd : fd < 0) :
    writeSectorsSWE fd lba data env =
      (some SDFormatResult.InvalidDevice, (env.tail, [])) := by
  simp [writeSectorsSWE, writeBytesSWE, writeBytesSW_neg _ _ _ _ hfd]

theorem zeroSectorsSW_neg (fd : Int) (s c : Nat) (env : Env) (hfd : fd < 0)
    (hc : c ≠ 0) :
    zeroSectorsSW fd s c env = (some SDFormatResult.InvalidDevice, (env.tail, [])) := by
  rw [zeroSectorsSW, if_neg hc, writeSectorsSWE_neg fd s _ env hfd]

theorem zeroSectorsSW_zero (fd : Int) (s : Nat) (env : Env) :
    zeroSectorsSW fd s 0 env = (some SDFormatResult.Success, (env, [])) := by
  rw [zeroSectorsSW]
  simp

/-- With an invalid handle, `SectorWriter::writeFSInfo` reports `IOError`. -/
theorem SW_writeFSInfo_neg (w : SectorWriterState) (env : Env) (hfd : w.fd < 0) :
    (SectorWriter.writeFSInfo w env).1 = some SDFormatResult.IOError := by
  unfold SectorWriter.writeFSInfo
  rw [writeSectorsSWE_neg _ _ _ _ hfd]

/-- With an invalid handle, `SectorWriter::writeFat32Tables` reports
`IOError` (whether or not the stored FAT size is zero). -/
theorem SW_writeFat32Tables_neg (w : SectorWriterState) (env : Env)
    (hfd : w.fd < 0) :
    (SectorWriter.writeFat32Tables w env).1 = some SDFormatResult.IOError := by
  unfold SectorWriter.writeFat32Tables
  by_cases hF : w.fatSizeSectors = 0
  · rw [hF, zeroSectorsSW_zero]
    simp only []
    rw [writeSectorsSWE_neg _ _ _ _ hfd]
  · rw [zeroSectorsSW_neg _ _ _ _ hfd hF]

/-- With an invalid handle, `SectorWriter::writeRootDirectory` reports
`IOError`. -/
theorem SW_writeRootDirectory_neg (w : SectorWriterState) (env : Env)
    (hfd : w.fd < 0) :
    (SectorWriter.writeRootDirectory w env).1 = some SDFormatResult.IOError := by
  unfold SectorWriter.writeRootDirectory
  rw [zeroSectorsSW_neg _ _ _ _ hfd (by simp [kSectorsPerCluster])]

/-- `SectorWriter::writeFSInfo` can only report `Success`, `IOError`, or
diverge. -/
theorem SW_writeFSInfo_range (w : SectorWriterState) (env : Env) :
    (SectorWriter.writeFSInfo w env).1 = some SDFormatResult.Success ∨
    (SectorWriter.writeFSInfo w env).1 = some SDFormatResult.IOError ∨
    (SectorWriter.writeFSInfo w env).1 = none := by
  unfold SectorWriter.writeFSInfo
  split <;> simp

/-- `SectorWriter::writeFat32Tables` can only report `Success`, `IOError`,
or diverge. -/
theorem SW_writeFat32Tables_range (w : SectorWriterState) (env : Env) :
    (SectorWriter.writeFat32Tables w env).1 = some SDFormatResult.Success ∨
    (SectorWriter.writeFat32Tables w env).1 = some SDFormatResult.IOError ∨
    (SectorWriter.writeFat32Tables w env).1 = none := by
  unfold SectorWriter.writeFat32Tables
  split
  · split
    · split
      · split <;> simp
      · simp
      · simp
    · simp
    · simp
  · simp
  · simp

/-- `SectorWriter::writeRootDirectory` can only report `Success`, `IOError`,
or diverge. -/
theorem SW_writeRootDirectory_range (w : SectorWriterState) (env : Env) :
    (SectorWriter.writeRootDirectory w env).1 = some SDFormatResult.Success ∨
    (SectorWriter.writeRootDirectory w env).1 = some SDFormatResult.IOError ∨
    (SectorWriter.writeRootDirectory w env).1 = none := by
  unfold SectorWriter.writeRootDirectory
  split
  · split <;> simp
  · simp
  · simp

/-- C10: the three `SectorWriter` operations map every non-success result of
their underlying writes to `IOError` (their result is always `Success`,
`IOError`, or divergence), and with an invalid handle (`fd < 0`, reported by
`SectorWriter::writeBytes` as `InvalidDevice`) each returns `IOError`. -/
theorem c10_sw_error_mapping (w : SectorWriterState) (env : Env) :
    (w.fd < 0 →
      (SectorWriter.writeFSInfo w env).1 = some SDFormatResult.IOError ∧
      (SectorWriter.writeFat32Tables w env).1 = some SDFormatResult.IOError ∧
      (SectorWriter.writeRootDirectory w env).1 = some SDFormatResult.IOError) ∧
    ((SectorWriter.writeFSInfo w env).1 = some SDFormatResult.Success ∨
     (SectorWriter.writeFSInfo w env).1 = some SDFormatResult.IOError ∨
     (SectorWriter.writeFSInfo w env).1 = none) ∧
    ((SectorWriter.writeFat32Tables w env).1 = some SDFormatResult.Success ∨
     (SectorWriter.writeFat32Tables w env).1 = some SDFormatResult.IOError ∨
     (SectorWriter.writeFat32Tables w env).1 = none) ∧
    ((SectorWriter.writeRootDirectory w env).1 = some SDFormatResult.Success ∨
     (SectorWriter.writeRootDirectory w env).1 = some SDFormatResult.IOError ∨
     (SectorWriter.writeRootDirectory w env).1 = none) :=
  ⟨fun hfd => ⟨SW_writeFSInfo_neg w env hfd, SW_writeFat32Tables_neg w env hfd,
     SW_writeRootDirectory_neg w env hfd⟩,
   SW_writeFSInfo_range w env, SW_writeFat32Tables_range w env,
   SW_writeRootDirectory_range w env⟩

/-- C10 witness: the theorem applied to a writer built on the invalid
handle `-1`. -/
theorem c10_sw_error_mapping_witness :
    (SectorWriter.make (-1) 18432 []).fd < 0 ∧
    (SectorWriter.writeFSInfo (SectorWriter.make (-1) 18432 []) []).1 =
      some SDFormatResult.IOError ∧
    (SectorWriter.writeFat32Tables (SectorWriter.make (-1) 18432 []) []).1 =
      some SDFormatResult.IOError ∧
    (SectorWriter.writeRootDirectory (SectorWriter.make (-1) 18432 []) []).1 =
      some SDFormatResult.IOError :=
  ⟨by decide,
   ((c10_sw_error_mapping (SectorWriter.make (-1) 18432 []) []).1 (by decide)).1,
   ((c10_sw_error_mapping (SectorWriter.make (-1) 18432 []) []).1 (by decide)).2.1,
   ((c10_sw_error_mapping (SectorWriter.make (-1) 18432 []) []).1 (by decide)).2.2⟩

-- ---------------------------------------------------------------------------
-- C2: FSInfo dual write
-- ---------------------------------------------------------------------------

/-- If `writeFSInfoWith` succeeds, both underlying `writeBytes` calls
succeeded (the write at sector 8193 and the write at sector 8199). -/
theorem writeFSInfoWith_success_implies (fd : Int) (img : List Nat) (env : Env)
    (h : (writeFSInfoWith fd img env).1 = some SDFormatResult.Success) :
    (writeBytes fd ((kPartitionAlignmentSectors + kFsInfoSector) * kSectorSize)
      img (env.headD CallBehavior.ok)).1 = some SDFormatResult.Success ∧
    (writeBytes fd ((kPartitionAlignmentSectors + kBackupBootSector + 1) * kSectorSize)
      img (env.tail.headD CallBehavior.ok)).1 = some SDFormatResult.Success := by
  unfold writeFSInfoWith at h
  split at h
  · rename_i env1 tr1 heq
    have h1 := congrArg (fun p => p.1) heq
    have h2 := congrArg (fun p => p.2.1) heq
    simp only [writeSectorE, writeBytesE] at h1 h2
    refine ⟨h1, ?_⟩
    rw [h2]
    simpa [writeSectorE, writeBytesE] using h
  · rename_i e1 t1 hc heq
    simp only [] at h
    exact absurd h hc

/-- Every syscall of `SectorWriter::writeFSInfo` belongs to its single
`writeBytes` call at absolute sector 8193. -/
theorem SW_writeFSInfo_trace_sub (w : SectorWriterState) (env : Env) (sc : Syscall)
    (h : sc ∈ (SectorWriter.writeFSInfo w env).2.2) :
    sc ∈ (writeBytesSW w.fd
      ((kPartitionAlignmentSectors + kFsInfoSector) * kSectorSize)
      (fsInfoBytes w.freeClusterCount) (env.headD CallBehavior.ok)).2 := by
  unfold SectorWriter.writeFSInfo at h
  split at h <;>
    (rename_i heq
     have htr := congrArg (fun p => p.2.2) heq
     simp only [writeSectorsSWE, writeBytesSWE] at htr
     simp only [] at h
     rw [← htr] at h
     exact h)

/-- A trace none of whose writes land at `off` has `writesAt tr off = false`. -/
theorem writesAt_eq_false {tr : List Syscall} {off : Nat}
    (h : ∀ o d, Syscall.writeCall o d ∈ tr → o ≠ off) :
    writesAt tr off = false := by
  simp only [writesAt, List.any_eq_false]
  intro sc hsc
  cases sc with
  | seek o => simp
  | writeCall o d => simp [h o d hsc]

/-- `SectorWriter::writeFSInfo` never writes at absolute sector 8199: all
its writes stay within the byte span of sector 8193. -/
theorem SW_writeFSInfo_no_backup (w : SectorWriterState) (env : Env) :
    writesAt (SectorWriter.writeFSInfo w env).2.2 (8199 * 512) = false := by
  apply writesAt_eq_false
  intro o d hmem
  have h1 := SW_writeFSInfo_trace_sub w env _ hmem
  have h2 := writeBytesSW_mem_bound _ _ _ _ _ _ h1
  have hlen := fsInfoBytes_length w.freeClusterCount
  rw [hlen] at h2
  simp only [kPartitionAlignmentSectors, kFsInfoSector, kSectorSize] at h2
  omega

/-- C2 (amended): `sdFormatWriteFSInfo` writes the identical FSInfo image at
absolute sectors 8193 and 8199 and returns `Success` only when both
underlying writes succeed; `SectorWriter::writeFSInfo`, by contrast, writes
only the primary copy at sector 8193 and never touches sector 8199. -/
theorem c2_fsinfo_dual_write (fd : Int) (t : Nat) (env : Env)
    (h : 18432 ≤ t) (hfd : 0 ≤ fd) :
    sdFormatWriteFSInfo fd t [] =
      (some SDFormatResult.Success, ([],
        [Syscall.seek (8193 * 512),
         Syscall.writeCall (8193 * 512) (fsInfoBytes (freeClusterCount t)),
         Syscall.seek (8199 * 512),
         Syscall.writeCall (8199 * 512) (fsInfoBytes (freeClusterCount t))])) ∧
    ((sdFormatWriteFSInfo fd t env).1 = some SDFormatResult.Success →
      (writeBytes fd (8193 * 512) (fsInfoBytes (freeClusterCount t))
        (env.headD CallBehavior.ok)).1 = some SDFormatResult.Success ∧
      (writeBytes fd (8199 * 512) (fsInfoBytes (freeClusterCount t))
        (env.tail.headD CallBehavior.ok)).1 = some SDFormatResult.Success) ∧
    (∀ (w : SectorWriterState) (envW : Env),
      writesAt (SectorWriter.writeFSInfo w envW).2.2 (8199 * 512) = false) := by
  have hoff1 : (kPartitionAlignmentSectors + kFsInfoSector) * kSectorSize =
      8193 * 512 := by decide
  have hoff2 : (kPartitionAlignmentSectors + kBackupBootSector + 1) * kSectorSize =
      8199 * 512 := by decide
  refine ⟨sdFormatWriteFSInfo_nil fd t hfd, fun hs => ?_, SW_writeFSInfo_no_backup⟩
  have := writeFSInfoWith_success_implies fd (fsInfoBytes (freeClusterCount t)) env hs
  rw [hoff1, hoff2] at this
  exact this

/-- C2 witness: the amended theorem applied at fd 3, totalSectors 8388608,
and the ideal environment. -/
theorem c2_fsinfo_dual_write_witness :
    18432 ≤ 8388608 ∧ (0 : Int) ≤ 3 ∧
    (sdFormatWriteFSInfo 3 8388608 [] =
      (some SDFormatResult.Success, ([],
        [Syscall.seek (8193 * 512),
         Syscall.writeCall (8193 * 512) (fsInfoBytes (freeClusterCount 8388608)),
         Syscall.seek (8199 * 512),
         Syscall.writeCall (8199 * 512) (fsInfoBytes (freeClusterCount 8388608))])) ∧
     ((sdFormatWriteFSInfo 3 8388608 []).1 = some SDFormatResult.Success →
       (writeBytes 3 (8193 * 512) (fsInfoBytes (freeClusterCount 8388608))
         (List.headD [] CallBehavior.ok)).1 = some SDFormatResult.Success ∧
       (writeBytes 3 (8199 * 512) (fsInfoBytes (freeClusterCount 8388608))
         (List.headD (List.tail []) CallBehavior.ok)).1 = some SDFormatResult.Success) ∧
     (∀ (w : SectorWriterState) (envW : Env),
       writesAt (SectorWriter.writeFSInfo w envW).2.2 (8199 * 512) = false)) :=
  ⟨by decide, by decide, c2_fsinfo_dual_write 3 8388608 [] (by decide) (by decide)⟩

/-- C2 counterexample: on a concrete valid device, `SectorWriter::writeFSInfo`
returns `Success` while writing sector 8193 only — no write lands at the
backup sector 8199. -/
theorem c2_counterexample :
    (SectorWriter.writeFSInfo (SectorWriter.make 3 8388608
        [78, 68, 83, 95, 70, 65, 84, 51, 50]) []).1 = some SDFormatResult.Success ∧
    writesAt (SectorWriter.writeFSInfo (SectorWriter.make 3 8388608
        [78, 68, 83, 95, 70, 65, 84, 51, 50]) []).2.2 (8193 * 512) = true ∧
    writesAt (SectorWriter.writeFSInfo (SectorWriter.make 3 8388608
        [78, 68, 83, 95, 70, 65, 84, 51, 50]) []).2.2 (8199 * 512) = false := by
  decide

-- ---------------------------------------------------------------------------
-- C7: end-to-end facts at totalSectors 8388608, label "NDS_FAT32"
-- ---------------------------------------------------------------------------

/-- C7: for totalSectors 8388608 and label "NDS_FAT32": the MBR's partition
entry 0 has type 0x0C, lbaStart 8192, and sectorCount 8380416, and the MBR
is written at sector 0; the VBR (for any serial) has bytesPerSector 512,
sectorsPerCluster 64, and rootCluster 2, and is written at sector 8192; the
FAT header sector begins with 32-bit entries 0xFFFFFFF8, 0xFFFFFFFF,
0x0FFFFFFF and is written at sector 8224; `dataStartSector` is 10270 and
the root-directory sector written there begins with "NDS_FAT32  ". -/
theorem c7_end_to_end (serial : Nat) :
    (mbrBytes 8388608).get? 450 = some 0x0C ∧
    ((mbrBytes 8388608).drop 454).take 4 = le32 8192 ∧
    ((mbrBytes 8388608).drop 458).take 4 = le32 8380416 ∧
    sdFormatWriteMBR 3 8388608 [] =
      (some SDFormatResult.Success, ([],
        [Syscall.seek 0, Syscall.writeCall 0 (mbrBytes 8388608)])) ∧
    ((vbrBytes 8388608 serial
        (prepareVolumeLabel [78, 68, 83, 95, 70, 65, 84, 51, 50])).drop 11).take 2 =
      le16 512 ∧
    (vbrBytes 8388608 serial
        (prepareVolumeLabel [78, 68, 83, 95, 70, 65, 84, 51, 50])).get? 13 =
      some 64 ∧
    ((vbrBytes 8388608 serial
        (prepareVolumeLabel [78, 68, 83, 95, 70, 65, 84, 51, 50])).drop 44).take 4 =
      le32 2 ∧
    Syscall.writeCall (8192 * 512)
        (vbrBytes 8388608 serial
          (prepareVolumeLabel [78, 68, 83, 95, 70, 65, 84, 51, 50])) ∈
      (sdFormatWriteVolumeBootRecord 3 8388608 serial
        [78, 68, 83, 95, 70, 65, 84, 51, 50] []).2.2 ∧
    fatHeaderSectorBytes.take 12 =
      le32 0xFFFFFFF8 ++ le32 0xFFFFFFFF ++ le32 0x0FFFFFFF ∧
    Syscall.writeCall (8224 * 512) fatHeaderSectorBytes ∈
      (sdFormatWriteFat32Tables 3 8388608 []).2.2 ∧
    dataStartSector 8388608 = 10270 ∧
    (rootDirSectorBytes
        (prepareVolumeLabel [78, 68, 83, 95, 70, 65, 84, 51, 50])).take 11 =
      [78, 68, 83, 95, 70, 65, 84, 51, 50, 32, 32] ∧
    Syscall.writeCall (10270 * 512)
        (rootDirSectorBytes
          (prepareVolumeLabel [78, 68, 83, 95, 70, 65, 84, 51, 50])) ∈
      (sdFormatWriteRootDirectory 3 8388608
        [78, 68, 83, 95, 70, 65, 84, 51, 50] []).2.2 := by
  refine ⟨by decide, by decide, by decide, ?_, rfl, rfl, rfl, ?_, by decide, ?_,
    by decide, by decide, ?_⟩
  · have h := writeSectorE_nil 3 0 (mbrBytes 8388608) (by decide)
      (ne_nil_of_length_512 (mbrBytes_length 8388608))
    unfold sdFormatWriteMBR
    simpa [kSectorSize] using h
  · rw [sdFormatWriteVolumeBootRecord_nil 3 8388608 serial _ (by decide)]
    simp
  · obtain ⟨ztr1, ztr2, heq⟩ := sdFormatWriteFat32Tables_nil 3 8388608 (by decide)
    rw [heq]
    have h8224 : kFatStartSector = 8224 := by decide
    simp [h8224, kSectorSize]
  · obtain ⟨ztr, heq⟩ :=
      sdFormatWriteRootDirectory_nil 3 8388608
        [78, 68, 83, 95, 70, 65, 84, 51, 50] (by decide)
    rw [heq]
    have hd : dataStartSector 8388608 = 10270 := by decide
    simp [hd, kSectorSize]

-- ---------------------------------------------------------------------------
-- C9: frame property of the five C API operations
-- ---------------------------------------------------------------------------

/-- Every write of `writeSectorE fd lba data env` lies within the byte span
of the transfer starting at sector `lba`. -/
theorem writeSectorE_mem_bound (fd : Int) (lba : Nat) (data : List Nat)
    (env : Env) (o : Nat) (d : List Nat)
    (h : Syscall.writeCall o d ∈ (writeSectorE fd lba data env).2.2) :
    lba * kSectorSize ≤ o ∧ o + d.length ≤ lba * kSectorSize + data.length := by
  simp only [writeSectorE, writeBytesE] at h
  exact writeBytes_mem_bound _ _ _ _ _ _ h

/-- A 512-byte sector write at `lba` stays within that one sector. -/
theorem writeSectorE_inSectors (fd : Int) (lba : Nat) (data : List Nat)
    (env : Env) (hlen : data.length = 512) (o : Nat) (d : List Nat)
    (h : Syscall.writeCall o d ∈ (writeSectorE fd lba data env).2.2) :
    inSectors o d.length lba 1 := by
  have hb := writeSectorE_mem_bound fd lba data env o d h
  rw [hlen] at hb
  simp only [inSectors, kSectorSize] at *
  omega

/-- A byte span inside a sub-range of sectors is inside the enclosing range. -/
theorem inSectors_of_sub {o len s c s1 c1 : Nat} (h : inSectors o len s1 c1)
    (h1 : s ≤ s1) (h2 : s1 + c1 ≤ s + c) : inSectors o len s c := by
  simp only [inSectors, kSectorSize] at *
  omega

/-- `sdFormatWriteMBR` writes only inside sector 0. -/
theorem sdFormatWriteMBR_traceAllowed (fd : Int) (t : Nat) (env : Env) :
    traceAllowed t (sdFormatWriteMBR fd t env).2.2 := by
  unfold traceAllowed
  intro sc hsc o d he
  subst he
  unfold sdFormatWriteMBR at hsc
  unfold allowedWrite
  exact Or.inl (writeSectorE_inSectors fd 0 _ env (mbrBytes_length t) o d hsc)

/-- `writeVBRWith` writes only inside sectors 8192 and 8198. -/
theorem writeVBRWith_traceAllowed (fd : Int) (t : Nat) (vbr : List Nat)
    (env : Env) (hlen : vbr.length = 512) :
    traceAllowed t (writeVBRWith fd vbr env).2.2 := by
  unfold traceAllowed
  intro sc hsc o d he
  subst he
  unfold writeVBRWith at hsc
  unfold allowedWrite
  split at hsc
  · rename_i env1 tr1 heq
    simp only [] at hsc
    rcases List.mem_append.mp hsc with hm | hm
    · have htr := congrArg (fun p => p.2.2) heq
      simp only [] at htr
      rw [← htr] at hm
      exact Or.inr (Or.inl (writeSectorE_inSectors fd _ vbr env hlen o d hm))
    · exact Or.inr (Or.inr (Or.inl
        (writeSectorE_inSectors fd _ vbr env1 hlen o d hm)))
  · rename_i r1 e1 t1 hc heq
    simp only [] at hsc
    have htr := congrArg (fun p => p.2.2) heq
    simp only [] at htr
    rw [← htr] at hsc
    exact Or.inr (Or.inl (writeSectorE_inSectors fd _ vbr env hlen o d hsc))

/-- `writeFSInfoWith` writes only inside sectors 8193 and 8199. -/
theorem writeFSInfoWith_traceAllowed (fd : Int) (t : Nat) (img : List Nat)
    (env : Env) (hlen : img.length = 512) :
    traceAllowed t (writeFSInfoWith fd img env).2.2 := by
  unfold traceAllowed
  intro sc hsc o d he
  subst he
  unfold writeFSInfoWith at hsc
  unfold allowedWrite
  split at hsc
  · rename_i env1 tr1 heq
    simp only [] at hsc
    rcases List.mem_append.mp hsc with hm | hm
    · have htr := congrArg (fun p => p.2.2) heq
      simp only [] at htr
      rw [← htr] at hm
      exact Or.inr (Or.inr (Or.inr (Or.inl
        (writeSectorE_inSectors fd _ img env hlen o d hm))))
    · exact Or.inr (Or.inr (Or.inr (Or.inr (Or.inl
        (writeSectorE_inSectors fd _ img env1 hlen o d hm)))))
  · rename_i r1 e1 t1 hc heq
    simp only [] at hsc
    have htr := congrArg (fun p => p.2.2) heq
    simp only [] at htr
    rw [← htr] at hsc
    exact Or.inr (Or.inr (Or.inr (Or.inl
      (writeSectorE_inSectors fd _ img env hlen o d hsc))))

/-- `writeFat32TablesWith` at fat size `F`, when the FAT region does not
overflow 32 bits, writes only inside the FAT region (sectors 8224 to
`8224 + 2*F`), except that when `F = 0` its two header writes land at
sector 8224, which is then `dataStartSector` itself. -/
theorem writeFat32TablesWith_traceAllowed (fd : Int) (t F : Nat) (env : Env)
    (hF : fatSizeSectors t = F)
    (hD : F = 0 → dataStartSector t = kFatStartSector)
    (hnw : kFatStartSector + kFatCount * F < 4294967296) :
    traceAllowed t (writeFat32TablesWith fd F env).2.2 := by
  have hu : u32 (kFatStartSector + F) = kFatStartSector + F := by
    refine u32_eq_of_lt ?_
    simp only [kFatStartSector, kPartitionAlignmentSectors, kReservedSectors,
      kFatCount] at hnw ⊢
    omega
  have hfat : ∀ o len, inSectors o len kFatStartSector (kFatCount * F) →
      allowedWrite t o len := by
    intro o len hin
    unfold allowedWrite
    rw [hF]
    exact Or.inr (Or.inr (Or.inr (Or.inr (Or.inr (Or.inl hin)))))
  have hheader : ∀ o len s, s = kFatStartSector ∨ s = kFatStartSector + F →
      inSectors o len s 1 → allowedWrite t o len := by
    intro o len s hs hin
    by_cases h0 : F = 0
    · unfold allowedWrite
      rw [hD h0]
      refine Or.inr (Or.inr (Or.inr (Or.inr (Or.inr (Or.inr ?_)))))
      rcases hs with hs | hs <;> subst hs <;>
        exact inSectors_of_sub hin (by omega)
          (by simp only [kSectorsPerCluster]; omega)
    · refine hfat o len ?_
      rcases hs with hs | hs <;> subst hs <;>
        exact inSectors_of_sub hin (by omega)
          (by simp only [kFatCount]; omega)
  unfold traceAllowed
  intro sc hsc o d he
  subst he
  unfold writeFat32TablesWith at hsc
  rw [hu] at hsc
  split at hsc
  · rename_i env1 tr1 heq1
    have htr1 := congrArg (fun p => p.2.2) heq1
    simp only [] at htr1
    split at hsc
    · rename_i env2 tr2 heq2
      have htr2 := congrArg (fun p => p.2.2) heq2
      simp only [] at htr2
      split at hsc
      · rename_i env3 tr3 heq3
        have htr3 := congrArg (fun p => p.2.2) heq3
        simp only [] at htr3
        simp only [] at hsc
        rcases List.mem_append.mp hsc with hm | hm4
        rcases List.mem_append.mp hm with hm | hm3
        rcases List.mem_append.mp hm with hm1 | hm2
        · rw [← htr1] at hm1
          exact hfat o d.length (inSectors_of_sub
            (zeroSectors_mem_bound fd _ F env o d hm1) (by omega)
            (by simp only [kFatCount]; omega))
        · rw [← htr2] at hm2
          exact hheader o d.length _ (Or.inl rfl)
            (writeSectorE_inSectors fd _ _ env1 fatHeaderSectorBytes_length o d hm2)
        · rw [← htr3] at hm3
          exact hfat o d.length (inSectors_of_sub
            (zeroSectors_mem_bound fd _ F env2 o d hm3) (by omega)
            (by simp only [kFatCount]; omega))
        · exact hheader o d.length _ (Or.inr rfl)
            (writeSectorE_inSectors fd _ _ env3 fatHeaderSectorBytes_length o d hm4)
      · rename_i r3 e3 t3 hc3 heq3
        have htr3 := congrArg (fun p => p.2.2) heq3
        simp only [] at htr3
        simp only [] at hsc
        rcases List.mem_append.mp hsc with hm | hm3
        rcases List.mem_append.mp hm with hm1 | hm2
        · rw [← htr1] at hm1
          exact hfat o d.length (inSectors_of_sub
            (zeroSectors_mem_bound fd _ F env o d hm1) (by omega)
            (by simp only [kFatCount]; omega))
        · rw [← htr2] at hm2
          exact hheader o d.length _ (Or.inl rfl)
            (writeSectorE_inSectors fd _ _ env1 fatHeaderSectorBytes_length o d hm2)
        · rw [← htr3] at hm3
          exact hfat o d.length (inSectors_of_sub
            (zeroSectors_mem_bound fd _ F env2 o d hm3) (by omega)
            (by simp only [kFatCount]; omega))
    · rename_i r2 e2 t2 hc2 heq2
      have htr2 := congrArg (fun p => p.2.2) heq2
      simp only [] at htr2
      simp only [] at hsc
      rcases List.mem_append.mp hsc with hm1 | hm2
      · rw [← htr1] at hm1
        exact hfat o d.length (inSectors_of_sub
          (zeroSectors_mem_bound fd _ F env o d hm1) (by omega)
          (by simp only [kFatCount]; omega))
      · rw [← htr2] at hm2
        exact hheader o d.length _ (Or.inl rfl)
          (writeSectorE_inSectors fd _ _ env1 fatHeaderSectorBytes_length o d hm2)
  · rename_i r1 e1 t1 hc1 heq1
    have htr1 := congrArg (fun p => p.2.2) heq1
    simp only [] at htr1
    simp only [] at hsc
    rw [← htr1] at hsc
    exact hfat o d.length (inSectors_of_sub
      (zeroSectors_mem_bound fd _ F env o d hsc) (by omega)
      (by simp only [kFatCount]; omega))

/-- `writeRootDirectoryWith` at `dataStartSector` writes only inside the
64-sector root-directory cluster. -/
theorem writeRootDirectoryWith_traceAllowed (fd : Int) (t D : Nat)
    (vol : List Nat) (env : Env) (hD : dataStartSector t = D)
    (hlen : (rootDirSectorBytes vol).length = 512) :
    traceAllowed t (writeRootDirectoryWith fd D vol env).2.2 := by
  have hroot : ∀ o len, inSectors o len D kSectorsPerCluster →
      allowedWrite t o len := by
    intro o len hin
    unfold allowedWrite
    rw [hD]
    exact Or.inr (Or.inr (Or.inr (Or.inr (Or.inr (Or.inr hin)))))
  unfold traceAllowed
  intro sc hsc o d he
  subst he
  unfold writeRootDirectoryWith at hsc
  split at hsc
  · rename_i env1 tr1 heq
    simp only [] at hsc
    rcases List.mem_append.mp hsc with hm | hm
    · have htr := congrArg (fun p => p.2.2) heq
      simp only [] at htr
      rw [← htr] at hm
      exact hroot o d.length (zeroSectors_mem_bound fd D _ env o d hm)
    · exact hroot o d.length (inSectors_of_sub
        (writeSectorE_inSectors fd D _ env1 hlen o d hm) (by omega)
        (by simp only [kSectorsPerCluster]; omega))
  · rename_i r1 e1 t1 hc heq
    simp only [] at hsc
    have htr := congrArg (fun p => p.2.2) heq
    simp only [] at htr
    rw [← htr] at hsc
    exact hroot o d.length (zeroSectors_mem_bound fd D _ env o d hsc)

/-- C9 counterexample: at the valid device size 17594300764288 (which
satisfies the minimum-size precondition) the code's `uint32_t`
`dataStartSector` wraps to 224, and `sdFormatWriteRootDirectory` issues a
write at byte offset `224 * 512` — sector 224 lies inside the alignment gap
(sectors 1-8191), and the whole 64-sector root cluster it touches does too,
so the original frame claim is false. -/
theorem c9_counterexample :
    18432 ≤ 17594300764288 ∧
    dataStartSector 17594300764288 = 224 ∧
    writesAt (sdFormatWriteRootDirectory 3 17594300764288 [] []).2.2
      (224 * 512) = true ∧
    (1 ≤ 224 ∧ 224 + kSectorsPerCluster ≤ 8192) := by
  have hD : dataStartSector 17594300764288 = 224 := by decide
  obtain ⟨ztr, heq⟩ :=
    sdFormatWriteRootDirectory_nil 3 17594300764288 [] (by decide)
  refine ⟨by decide, hD, ?_, by decide⟩
  rw [heq]
  simp [writesAt, hD, kSectorSize]

/-- C9 (amended): the original claim fails at device sizes where the
`uint32_t` geometry wraps (see the counterexample).  Whenever the derived
FAT region does not overflow 32 bits (`8224 + 2*fatSizeSectors < 2^32` — in
particular on all real device sizes), `dataStartSector` is exactly
`8224 + 2*fatSizeSectors` and, for any label, serial, handle and device
behaviour, each of the five formatting operations issues writes only inside
the allowed regions — sector 0, the VBR sectors 8192/8198, the FSInfo
sectors 8193/8199, the FAT region at 8224 of length `2*fatSizeSectors`, and
the 64-sector root-directory cluster at `dataStartSector` — so the
alignment gap (sectors 1-8191) and the reserved sectors 8194-8197 and
8200-8223 are never written. -/
theorem c9_frame (t serial : Nat) (label : List Nat) (fd : Int) (env : Env)
    (h : 18432 ≤ t)
    (hnw : kFatStartSector + kFatCount * fatSizeSectors t < 4294967296) :
    dataStartSector t = kFatStartSector + kFatCount * fatSizeSectors t ∧
    traceAllowed t (sdFormatWriteMBR fd t env).2.2 ∧
    traceAllowed t (sdFormatWriteVolumeBootRecord fd t serial label env).2.2 ∧
    traceAllowed t (sdFormatWriteFSInfo fd t env).2.2 ∧
    traceAllowed t (sdFormatWriteFat32Tables fd t env).2.2 ∧
    traceAllowed t (sdFormatWriteRootDirectory fd t label env).2.2 := by
  have hD0 : fatSizeSectors t = 0 → dataStartSector t = kFatStartSector := by
    intro h0
    unfold dataStartSector
    rw [h0]
    decide
  have hds : dataStartSector t = kFatStartSector + kFatCount * fatSizeSectors t := by
    have h0 : dataStartSector t =
        u32 (kFatStartSector + u32 (kFatCount * fatSizeSectors t)) := rfl
    simp only [kFatStartSector, kPartitionAlignmentSectors, kReservedSectors,
      kFatCount] at hnw h0 ⊢
    simp only [u32] at h0
    omega
  refine ⟨hds, sdFormatWriteMBR_traceAllowed fd t env, ?_, ?_, ?_, ?_⟩
  · exact writeVBRWith_traceAllowed fd t _ env
      (vbrBytes_length t serial _ (prepareVolumeLabel_length label))
  · exact writeFSInfoWith_traceAllowed fd t _ env
      (fsInfoBytes_length (freeClusterCount t))
  · exact writeFat32TablesWith_traceAllowed fd t (fatSizeSectors t) env rfl hD0 hnw
  · exact writeRootDirectoryWith_traceAllowed fd t (dataStartSector t) _ env rfl
      (rootDirSectorBytes_length _ (prepareVolumeLabel_length label))

/-- C9 witness: the amended frame theorem applied at totalSectors 8388608,
serial 0, label "NDS_FAT32", fd 3, and the ideal environment, with the
no-overflow premise discharged. -/
theorem c9_frame_witness :
    18432 ≤ 8388608 ∧
    kFatStartSector + kFatCount * fatSizeSectors 8388608 < 4294967296 ∧
    (dataStartSector 8388608 =
       kFatStartSector + kFatCount * fatSizeSectors 8388608 ∧
     traceAllowed 8388608 (sdFormatWriteMBR 3 8388608 []).2.2 ∧
     traceAllowed 8388608 (sdFormatWriteVolumeBootRecord 3 8388608 0
       [78, 68, 83, 95, 70, 65, 84, 51, 50] []).2.2 ∧
     traceAllowed 8388608 (sdFormatWriteFSInfo 3 8388608 []).2.2 ∧
     traceAllowed 8388608 (sdFormatWriteFat32Tables 3 8388608 []).2.2 ∧
     traceAllowed 8388608 (sdFormatWriteRootDirectory 3 8388608
       [78, 68, 83, 95, 70, 65, 84, 51, 50] []).2.2) :=
  ⟨by decide, by decide,
   c9_frame 8388608 0 [78, 68, 83, 95, 70, 65, 84, 51, 50] 3 []
     (by decide) (by decide)⟩

end NdsSD
